import Mathlib

/-
Formal model of `RTC::Peer` (worker/src/RTC/Peer.cpp).

The Peer aggregates a participant's Transports, Producers and Consumers,
dispatches control-plane requests, demultiplexes incoming RTCP, and drives
the RTCP interval timer.  Collaborator internals (Transport, Producer,
Consumer, the RTCP codec, the Room) are out of scope and are modelled as
opaque data / oracle functions: a Consumer carries its `GetTransmissionRate`
and `GetRtcp` behaviour as function fields, a Transport its REMB flag, and
an `Env` record carries the fallible collaborator calls (capability parsing,
Transport construction, `Media::GetKind`, `Transport::AddProducer`) as
`Except`/`Option` valued oracles, mirroring the C++ `try`/`catch` boundaries.

Machine integers are modelled as `Nat` with explicit `% 2 ^ 32` where the
C++ arithmetic is performed on `uint32_t` accumulators.  The single
floating-point operation in the file (the RTCP interval jitter multiply,
Peer.cpp:1197) is modelled exactly as binary32 round-to-nearest-even
arithmetic over scaled naturals, see `round32` below.
-/

set_option autoImplicit false

namespace MediasoupPeer

/-- Media kind of a Producer/Consumer (`RTC::Media::Kind`). -/
inductive MediaKind where
  | AUDIO
  | VIDEO
  | DEPTH
deriving DecidableEq

/-- State of an RTCP compound-packet builder (`RTC::RTCP::CompoundPacket`),
abstracted to the three observations Peer.cpp makes on it:
`GetSenderReportCount`, `GetReceiverReportCount` and `GetSize`. -/
structure CompoundPacket where
  senderReportCount : Nat
  receiverReportCount : Nat
  size : Nat
deriving DecidableEq

/-- A fresh compound-packet builder (`new RTC::RTCP::CompoundPacket()`). -/
def CompoundPacket.empty : CompoundPacket :=
  { senderReportCount := 0, receiverReportCount := 0, size := 0 }

/-- One RTP encoding of a Consumer's RTP parameters, keeping only the SSRC
fields that `Peer::GetConsumer` (Peer.cpp:616) inspects: `encoding.ssrc`,
`encoding.hasFec` / `encoding.fec.ssrc`, `encoding.hasRtx` /
`encoding.rtx.ssrc` (the nested `fec.ssrc` / `rtx.ssrc` are flattened). -/
structure RtpEncoding where
  ssrc : Nat
  hasFec : Bool
  fecSsrc : Nat
  hasRtx : Bool
  rtxSsrc : Nat
deriving DecidableEq

/-- RTP parameters of a Consumer, keeping the encodings list that
`Peer::GetConsumer` iterates. -/
structure RtpParameters where
  encodings : List RtpEncoding
deriving DecidableEq

/-- A Consumer as seen from Peer.cpp: its id, kind, `GetActive` flag,
`GetParameters` (null until assigned), its current Transport reference
(modelled as the transport's map key; null when unset), and its
`GetTransmissionRate` / `GetRtcp` collaborator behaviour as oracles. -/
structure Consumer where
  consumerId : Nat
  kind : MediaKind
  active : Bool
  parameters : Option RtpParameters
  transport : Option Nat
  transmissionRate : Nat → Nat
  getRtcp : Nat → CompoundPacket → CompoundPacket

/-- A Producer as seen from Peer.cpp: id, kind, current Transport reference
and its `GetRtcp` behaviour. -/
structure Producer where
  producerId : Nat
  kind : MediaKind
  transport : Option Nat
  getRtcp : Nat → CompoundPacket → CompoundPacket

/-- A Transport as seen from Peer.cpp: only its REMB flag
(`HasRemb` / `EnableRemb`) is observed by the modelled code. -/
structure Transport where
  remb : Bool
deriving DecidableEq

/-- Opaque RTP capabilities descriptor (`RTC::RtpCapabilities`); its content
is never inspected by Peer.cpp, only stored, handed to the Room listener
and serialized. -/
structure RtpCapabilities where
  tag : Nat
deriving DecidableEq

/-- The Peer aggregate (Peer.hpp data members used by Peer.cpp): id, name,
set-once capabilities with their `hasCapabilities` flag, and the three
id-keyed entity maps.  The maps are modelled as association lists whose
list order is the map's iteration order. -/
structure Peer where
  peerId : Nat
  peerName : String
  hasCapabilities : Bool
  capabilities : RtpCapabilities
  transports : List (Nat × Transport)
  producers : List (Nat × Producer)
  consumers : List (Nat × Consumer)

/-- First-match association-list lookup (`std::unordered_map::find`). -/
def lookupA {α : Type} (l : List (Nat × α)) (k : Nat) : Option α :=
  match l with
  | [] => none
  | kv :: rest => if kv.1 = k then some kv.2 else lookupA rest k

/-- Association-list insert-or-assign (`map[key] = value`). -/
def insertA {α : Type} (l : List (Nat × α)) (k : Nat) (v : α) : List (Nat × α) :=
  match l with
  | [] => [(k, v)]
  | kv :: rest => if kv.1 = k then (k, v) :: rest else kv :: insertA rest k v

/-- Inner loop of `Peer::GetConsumer` (Peer.cpp:629): walk the encodings of
one Consumer; the SSRC matches an encoding if it equals the primary `ssrc`,
or (when `hasFec`) the FEC ssrc, or (when `hasRtx`) the RTX ssrc. -/
def encodingsClaimSsrc (ssrc : Nat) : List RtpEncoding → Bool
  | [] => false
  | e :: rest =>
      if e.ssrc = ssrc then true
      else if e.hasFec && (e.fecSsrc == ssrc) then true
      else if e.hasRtx && (e.rtxSsrc == ssrc) then true
      else encodingsClaimSsrc ssrc rest

/-- Outer loop of `Peer::GetConsumer` (Peer.cpp:620): linear scan over the
consumers map; a Consumer whose `GetParameters()` is null is skipped; the
first Consumer one of whose encodings claims the SSRC is returned. -/
def getConsumerLoop (ssrc : Nat) : List (Nat × Consumer) → Option Consumer
  | [] => none
  | kc :: rest =>
      match kc.2.parameters with
      | none => getConsumerLoop ssrc rest
      | some ps =>
          if encodingsClaimSsrc ssrc ps.encodings then some kc.2
          else getConsumerLoop ssrc rest

/-- `Peer::GetConsumer(ssrc)` (Peer.cpp:616). -/
def Peer.getConsumer (p : Peer) (ssrc : Nat) : Option Consumer :=
  getConsumerLoop ssrc p.consumers

/-- Specification-side predicate, phrased as in spec.md section 4.2: a
Consumer claims an SSRC when one of its encodings matches it (a Consumer
without assigned RTP parameters has no encodings). -/
def consumerClaimsSsrc (ssrc : Nat) (c : Consumer) : Bool :=
  match c.parameters with
  | none => false
  | some ps =>
      ps.encodings.any fun e =>
        (e.ssrc == ssrc) || (e.hasFec && (e.fecSsrc == ssrc))
          || (e.hasRtx && (e.rtxSsrc == ssrc))

/-- Observable actions of the modelled code: responses on the request
(`Accept` / `Reject`), calls into collaborators (child `Destroy`,
`AddProducer`, `EnableRemb`, `SetTransport`, `SendRtcpCompoundPacket`,
`ReceiveNack`), up-calls into the Room listener, notifier events, and the
log lines Peer.cpp emits.  The `delegated` effect stands for forwarding the
request to an owned entity's own `HandleRequest` (which performs its own
single Accept/Reject). -/
inductive Effect where
  | accept
  | reject (reason : String)
  | delegated (id : Nat)
  | notify (event : String)
  | onPeerCapabilities
  | onPeerClosed
  | destroyProducer (id : Nat)
  | destroyConsumer (id : Nat)
  | destroyTransport (id : Nat)
  | addProducerCall (transportId : Nat) (producerId : Nat)
  | enableRemb (transportId : Nat)
  | producerSetTransport (producerId : Nat) (transportId : Nat)
  | consumerSetTransport (consumerId : Nat) (transportId : Nat)
  | sendRtcpCompound (transportId : Nat)
  | warnRtcpTooBig (size : Nat)
  | onPeerRtcpReceiverReport (consumerId : Nat)
  | onPeerRtcpSenderReport (producerId : Nat)
  | onPeerRtcpFeedback (consumerId : Nat)
  | receiveNack (consumerId : Nat)
  | debugPliReceived (ssrc : Nat)
  | debugByeIgnored
  | warnNoConsumerForReceiverReport (ssrc : Nat)
  | warnNoConsumerForPsFeedback (ssrc : Nat)
  | warnUnsupportedPsFeedback (ssrc : Nat)
  | warnNoConsumerForNack (ssrc : Nat)
  | warnUnsupportedRtpFeedback (ssrc : Nat)
  | warnNoProducerForSenderReport (ssrc : Nat)
  | warnNoProducerForSdes (ssrc : Nat)
  | warnUnhandledRtcpType (t : Nat)
deriving DecidableEq

/-- The methods `Peer::HandleRequest` (Peer.cpp:140) switches on; `OTHER`
stands for any further `Channel::Request::MethodId` value, which falls into
the `default` arm. -/
inductive MethodId where
  | PEER_CLOSE
  | PEER_DUMP
  | PEER_SET_CAPABILITIES
  | PEER_CREATE_TRANSPORT
  | PEER_CREATE_PRODUCER
  | TRANSPORT_CLOSE
  | TRANSPORT_DUMP
  | TRANSPORT_SET_REMOTE_DTLS_PARAMETERS
  | TRANSPORT_SET_MAX_BITRATE
  | TRANSPORT_CHANGE_UFRAG_PWD
  | PRODUCER_CLOSE
  | PRODUCER_DUMP
  | PRODUCER_RECEIVE
  | PRODUCER_SET_RTP_RAW_EVENT
  | PRODUCER_SET_RTP_OBJECT_EVENT
  | PRODUCER_SET_TRANSPORT
  | CONSUMER_DUMP
  | CONSUMER_SET_TRANSPORT
  | CONSUMER_DISABLE
  | OTHER
deriving DecidableEq

/-- A control-plane request.  `transportIdField` is `some id` exactly when
`request->internal[transportId].isUInt()` holds (likewise for the other two
ids), and `kindField` is `some s` exactly when `request->data[kind]` is the
string `s`; the remaining `data` payload is opaque and only seen by the
`Env` oracles. -/
structure Request where
  methodId : MethodId
  transportIdField : Option Nat
  producerIdField : Option Nat
  consumerIdField : Option Nat
  kindField : Option String

/-- Collaborator behaviour crossed by `Peer::HandleRequest`:
`RTC::RtpCapabilities(request->data)` (may throw), the Room's in-place
capability reduction in `OnPeerCapabilities`, `new RTC::Transport(...)`
(may throw), `RTC::Media::GetKind` (throws on an invalid kind string), and
`Transport::AddProducer` (`some msg` models a thrown `MediaSoupError`). -/
structure Env where
  parseCapabilities : Request → Except String RtpCapabilities
  reduceCapabilities : RtpCapabilities → RtpCapabilities
  newTransport : Nat → Request → Except String Transport
  getKind : String → Except String MediaKind
  addProducer : Nat → Nat → Option String

/-- Result of one entry into `Peer::HandleRequest`: either a normal return
with the new Peer state and the emitted effect trace, or a C++ exception
propagating out of `HandleRequest` to its caller. -/
inductive Outcome where
  | ok (st : Peer) (tr : List Effect)
  | thrown (msg : String) (st : Peer) (tr : List Effect)

/-- Close-loop of `Peer::Destroy` over one child map (Peer.cpp:46,55,66):
erase each entry and destroy the child, in iteration order. -/
def destroyChildren {α : Type} (mk : Nat → Effect) : List (Nat × α) → List Effect
  | [] => []
  | kv :: rest => mk kv.1 :: destroyChildren mk rest

/-- `Peer::Destroy` (Peer.cpp:37): destroy every Producer, then every
Consumer, then every Transport (Transports must outlive the others), then
emit the `close` notification and call `OnPeerClosed` on the listener. -/
def Peer.destroy (p : Peer) : Peer × List Effect :=
  ({ p with producers := [], consumers := [], transports := [] },
    destroyChildren Effect.destroyProducer p.producers
      ++ destroyChildren Effect.destroyConsumer p.consumers
      ++ destroyChildren Effect.destroyTransport p.transports
      ++ [Effect.notify ("close"), Effect.onPeerClosed])

/-- `Peer::GetTransportFromRequest` (Peer.cpp:714): throws when
`internal.transportId` is not a uint, else yields the id and the map
lookup (null when absent). -/
def getTransportFromRequest (p : Peer) (req : Request) :
    Except String (Nat × Option Transport) :=
  match req.transportIdField with
  | none => Except.error ("Request has not numeric internal.transportId")
  | some tid => Except.ok (tid, lookupA p.transports tid)

/-- `Peer::GetProducerFromRequest` (Peer.cpp:739). -/
def getProducerFromRequest (p : Peer) (req : Request) :
    Except String (Nat × Option Producer) :=
  match req.producerIdField with
  | none => Except.error ("Request has not numeric internal.producerId")
  | some pid => Except.ok (pid, lookupA p.producers pid)

/-- `Peer::GetConsumerFromRequest` (Peer.cpp:764). -/
def getConsumerFromRequest (p : Peer) (req : Request) :
    Except String (Nat × Option Consumer) :=
  match req.consumerIdField with
  | none => Except.error ("Request has not numeric internal.consumerId")
  | some cid => Except.ok (cid, lookupA p.consumers cid)

/-- `PEER_CLOSE` arm (Peer.cpp:146): `Destroy()` then `Accept()`. -/
def handlePeerClose (p : Peer) : Outcome :=
  let r := p.destroy
  Outcome.ok r.1 (r.2 ++ [Effect.accept])

/-- `PEER_DUMP` arm (Peer.cpp:161): `Accept(ToJson())`. -/
def handlePeerDump (p : Peer) : Outcome :=
  Outcome.ok p [Effect.accept]

/-- `PEER_SET_CAPABILITIES` arm (Peer.cpp:170): reject when capabilities
are already set; parse (catching the codec error into a reject); set the
flag; notify the Room listener (which reduces the capabilities in place);
accept only after the notification has returned. -/
def handleSetCapabilities (env : Env) (p : Peer) (req : Request) : Outcome :=
  if p.hasCapabilities then
    Outcome.ok p [Effect.reject ("peer capabilities already set")]
  else
    match env.parseCapabilities req with
    | Except.error e => Outcome.ok p [Effect.reject e]
    | Except.ok caps =>
        Outcome.ok
          { p with hasCapabilities := true,
                   capabilities := env.reduceCapabilities caps }
          [Effect.onPeerCapabilities, Effect.accept]

/-- `PEER_CREATE_TRANSPORT` arm (Peer.cpp:209). -/
def handleCreateTransport (env : Env) (p : Peer) (req : Request) : Outcome :=
  match getTransportFromRequest p req with
  | Except.error e => Outcome.ok p [Effect.reject e]
  | Except.ok (_, some _) => Outcome.ok p [Effect.reject ("Transport already exists")]
  | Except.ok (tid, none) =>
      match env.newTransport tid req with
      | Except.error e => Outcome.ok p [Effect.reject e]
      | Except.ok t =>
          Outcome.ok { p with transports := insertA p.transports tid t } [Effect.accept]

/-- `PEER_CREATE_PRODUCER` arm (Peer.cpp:254).  Note that the mandatory
`kind` check (Peer.cpp:308) sits outside every `try` block of this arm:
when `data.kind` is not a string, `MS_THROW_ERROR` propagates out of
`HandleRequest` without any Accept or Reject. -/
def handleCreateProducer (env : Env) (p : Peer) (req : Request) : Outcome :=
  if !p.hasCapabilities then
    Outcome.ok p [Effect.reject ("peer capabilities are not yet set")]
  else
    match getProducerFromRequest p req with
    | Except.error e => Outcome.ok p [Effect.reject e]
    | Except.ok (_, some _) => Outcome.ok p [Effect.reject ("Producer already exists")]
    | Except.ok (pid, none) =>
        match getTransportFromRequest p req with
        | Except.error e => Outcome.ok p [Effect.reject e]
        | Except.ok (_, none) => Outcome.ok p [Effect.reject ("Transport does not exist")]
        | Except.ok (tid, some _) =>
            match req.kindField with
            | none => Outcome.thrown ("missing kind") p []
            | some kind =>
                match env.getKind kind with
                | Except.error e => Outcome.ok p [Effect.reject e]
                | Except.ok k =>
                    let producer : Producer :=
                      { producerId := pid, kind := k, transport := some tid,
                        getRtcp := fun _ pk => pk }
                    Outcome.ok
                      { p with producers := insertA p.producers pid producer }
                      [Effect.producerSetTransport pid tid, Effect.accept]

/-- `TRANSPORT_*` delegated arms (Peer.cpp:337): resolve the Transport,
reject when missing, else forward the request to it. -/
def handleTransportDelegate (p : Peer) (req : Request) : Outcome :=
  match getTransportFromRequest p req with
  | Except.error e => Outcome.ok p [Effect.reject e]
  | Except.ok (_, none) => Outcome.ok p [Effect.reject ("Transport does not exist")]
  | Except.ok (tid, some _) => Outcome.ok p [Effect.delegated tid]

/-- `PRODUCER_*` delegated arms (Peer.cpp:368). -/
def handleProducerDelegate (p : Peer) (req : Request) : Outcome :=
  match getProducerFromRequest p req with
  | Except.error e => Outcome.ok p [Effect.reject e]
  | Except.ok (_, none) => Outcome.ok p [Effect.reject ("Producer does not exist")]
  | Except.ok (pid, some _) => Outcome.ok p [Effect.delegated pid]

/-- `CONSUMER_DUMP` / `CONSUMER_DISABLE` delegated arms (Peer.cpp:466,542). -/
def handleConsumerDelegate (p : Peer) (req : Request) : Outcome :=
  match getConsumerFromRequest p req with
  | Except.error e => Outcome.ok p [Effect.reject e]
  | Except.ok (_, none) => Outcome.ok p [Effect.reject ("Consumer does not exist")]
  | Except.ok (cid, some _) => Outcome.ok p [Effect.delegated cid]

/-- `PRODUCER_SET_TRANSPORT` arm (Peer.cpp:399): resolve both entities;
call `Transport::AddProducer` (its `MediaSoupError` is caught and turned
into a reject, with the Producer's state untouched); carry REMB over from
the previous Transport; only then set the Producer's transport pointer;
accept. -/
def handleProducerSetTransport (env : Env) (p : Peer) (req : Request) : Outcome :=
  match getProducerFromRequest p req with
  | Except.error e => Outcome.ok p [Effect.reject e]
  | Except.ok (_, none) => Outcome.ok p [Effect.reject ("Producer does not exist")]
  | Except.ok (pid, some producer) =>
      match getTransportFromRequest p req with
      | Except.error e => Outcome.ok p [Effect.reject e]
      | Except.ok (_, none) => Outcome.ok p [Effect.reject ("Transport does not exist")]
      | Except.ok (tid, some t) =>
          match env.addProducer tid pid with
          | some e => Outcome.ok p [Effect.addProducerCall tid pid, Effect.reject e]
          | none =>
              let rembCarry : Bool :=
                match producer.transport with
                | some prevTid =>
                    match lookupA p.transports prevTid with
                    | some prevT => prevT.remb
                    | none => false
                | none => false
              let stepRemb : Peer × List Effect :=
                if rembCarry then
                  ({ p with transports := insertA p.transports tid { t with remb := true } },
                    [Effect.enableRemb tid])
                else (p, [])
              Outcome.ok
                { stepRemb.1 with
                    producers :=
                      insertA stepRemb.1.producers pid { producer with transport := some tid } }
                ([Effect.addProducerCall tid pid] ++ stepRemb.2
                  ++ [Effect.producerSetTransport pid tid, Effect.accept])

/-- `CONSUMER_SET_TRANSPORT` arm (Peer.cpp:493): resolve both entities,
delegate the binding to the Consumer (`Consumer::SetTransport`), accept. -/
def handleConsumerSetTransport (p : Peer) (req : Request) : Outcome :=
  match getConsumerFromRequest p req with
  | Except.error e => Outcome.ok p [Effect.reject e]
  | Except.ok (_, none) => Outcome.ok p [Effect.reject ("Consumer does not exist")]
  | Except.ok (cid, some c) =>
      match getTransportFromRequest p req with
      | Except.error e => Outcome.ok p [Effect.reject e]
      | Except.ok (_, none) => Outcome.ok p [Effect.reject ("Transport does not exist")]
      | Except.ok (tid, some _) =>
          Outcome.ok
            { p with consumers := insertA p.consumers cid { c with transport := some tid } }
            [Effect.consumerSetTransport cid tid, Effect.accept]

/-- `Peer::HandleRequest` (Peer.cpp:140): the method switch. -/
def handleRequest (env : Env) (p : Peer) (req : Request) : Outcome :=
  match req.methodId with
  | MethodId.PEER_CLOSE => handlePeerClose p
  | MethodId.PEER_DUMP => handlePeerDump p
  | MethodId.PEER_SET_CAPABILITIES => handleSetCapabilities env p req
  | MethodId.PEER_CREATE_TRANSPORT => handleCreateTransport env p req
  | MethodId.PEER_CREATE_PRODUCER => handleCreateProducer env p req
  | MethodId.TRANSPORT_CLOSE => handleTransportDelegate p req
  | MethodId.TRANSPORT_DUMP => handleTransportDelegate p req
  | MethodId.TRANSPORT_SET_REMOTE_DTLS_PARAMETERS => handleTransportDelegate p req
  | MethodId.TRANSPORT_SET_MAX_BITRATE => handleTransportDelegate p req
  | MethodId.TRANSPORT_CHANGE_UFRAG_PWD => handleTransportDelegate p req
  | MethodId.PRODUCER_CLOSE => handleProducerDelegate p req
  | MethodId.PRODUCER_DUMP => handleProducerDelegate p req
  | MethodId.PRODUCER_RECEIVE => handleProducerDelegate p req
  | MethodId.PRODUCER_SET_RTP_RAW_EVENT => handleProducerDelegate p req
  | MethodId.PRODUCER_SET_RTP_OBJECT_EVENT => handleProducerDelegate p req
  | MethodId.PRODUCER_SET_TRANSPORT => handleProducerSetTransport env p req
  | MethodId.CONSUMER_DUMP => handleConsumerDelegate p req
  | MethodId.CONSUMER_SET_TRANSPORT => handleConsumerSetTransport p req
  | MethodId.CONSUMER_DISABLE => handleConsumerDelegate p req
  | MethodId.OTHER => Outcome.ok p [Effect.reject ("unknown method")]

/-- An effect that answers the request: Peer's own `Accept`/`Reject`, or
the hand-off to an owned entity's `HandleRequest` (which per the external
interface performs exactly one Accept/Reject itself). -/
def isResponse : Effect → Bool
  | Effect.accept => true
  | Effect.reject _ => true
  | Effect.delegated _ => true
  | _ => false

/-- Number of request responses in a trace. -/
def responseCount (tr : List Effect) : Nat :=
  tr.countP isResponse

/-- `RTCP::FeedbackPs::MessageType` values Peer.cpp switches on. -/
inductive PsMessageType where
  | PLI
  | SLI
  | RPSI
  | FIR
  | AFB
  | TSTR
  | TSTN
  | VBCM
  | PSLEI
  | ROI
  | EXT
deriving DecidableEq

/-- `RTCP::FeedbackRtp::MessageType` values Peer.cpp switches on. -/
inductive RtpMessageType where
  | NACK
  | TMMBR
  | TMMBN
  | SR_REQ
  | RAMS
  | TLLEI
  | ECN
  | PS
  | EXT
deriving DecidableEq

/-- One already-parsed RTCP sub-packet of a compound, keeping the fields
`Peer::OnTransportRtcpPacket` reads: the report-block / chunk SSRCs for
RR, SR and SDES, the message type and `GetMediaSsrc` for PSFB and RTPFB,
and for an AFB packet whether `GetApplication()` is REMB. -/
inductive RtcpSubPacket where
  | rr (ssrcs : List Nat)
  | sr (ssrcs : List Nat)
  | sdes (ssrcs : List Nat)
  | psfb (mt : PsMessageType) (afbIsRemb : Bool) (mediaSsrc : Nat)
  | rtpfb (mt : RtpMessageType) (mediaSsrc : Nat)
  | bye
  | unknown (t : Nat)

/-- Shared tail of the PLI/SLI/RPSI/FIR (and non-REMB AFB fall-through)
branch (Peer.cpp:943): look up the Consumer by media SSRC; warn when
missing; drop silently when inactive; otherwise log PLI and notify the
Room via `OnPeerRtcpFeedback`. -/
def handlePsFeedback (p : Peer) (mt : PsMessageType) (mediaSsrc : Nat) : List Effect :=
  match p.getConsumer mediaSsrc with
  | some c =>
      if !c.active then []
      else
        (if mt = PsMessageType.PLI then [Effect.debugPliReceived mediaSsrc] else [])
          ++ [Effect.onPeerRtcpFeedback c.consumerId]
  | none => [Effect.warnNoConsumerForPsFeedback mediaSsrc]

/-- Dispatch of one RTCP sub-packet (`Peer::OnTransportRtcpPacket`,
Peer.cpp:891). `transportProducer` models `transport->GetProducer(ssrc)` on
the Transport the compound arrived on, returning the producer id.  A REMB
AFB breaks out; a non-REMB AFB falls through into the PLI/SLI/RPSI/FIR
branch, as the missing `break` in the source does. -/
def handleRtcpSubPacket (p : Peer) (transportProducer : Nat → Option Nat) :
    RtcpSubPacket → List Effect
  | RtcpSubPacket.rr ssrcs =>
      ssrcs.flatMap fun s =>
        match p.getConsumer s with
        | some c => [Effect.onPeerRtcpReceiverReport c.consumerId]
        | none => [Effect.warnNoConsumerForReceiverReport s]
  | RtcpSubPacket.psfb mt afbIsRemb mediaSsrc =>
      match mt with
      | PsMessageType.AFB =>
          if afbIsRemb then [] else handlePsFeedback p PsMessageType.AFB mediaSsrc
      | PsMessageType.PLI => handlePsFeedback p PsMessageType.PLI mediaSsrc
      | PsMessageType.SLI => handlePsFeedback p PsMessageType.SLI mediaSsrc
      | PsMessageType.RPSI => handlePsFeedback p PsMessageType.RPSI mediaSsrc
      | PsMessageType.FIR => handlePsFeedback p PsMessageType.FIR mediaSsrc
      | _ => [Effect.warnUnsupportedPsFeedback mediaSsrc]
  | RtcpSubPacket.rtpfb mt mediaSsrc =>
      match mt with
      | RtpMessageType.NACK =>
          match p.getConsumer mediaSsrc with
          | some c => [Effect.receiveNack c.consumerId]
          | none => [Effect.warnNoConsumerForNack mediaSsrc]
      | _ => [Effect.warnUnsupportedRtpFeedback mediaSsrc]
  | RtcpSubPacket.sr ssrcs =>
      ssrcs.flatMap fun s =>
        match transportProducer s with
        | some pid => [Effect.onPeerRtcpSenderReport pid]
        | none => [Effect.warnNoProducerForSenderReport s]
  | RtcpSubPacket.sdes ssrcs =>
      ssrcs.flatMap fun s =>
        match transportProducer s with
        | some _ => []
        | none => [Effect.warnNoProducerForSdes s]
  | RtcpSubPacket.bye => [Effect.debugByeIgnored]
  | RtcpSubPacket.unknown t => [Effect.warnUnhandledRtcpType t]

/-- `Peer::OnTransportRtcpPacket` (Peer.cpp:891): walk the intrusive list
of sub-packets to its end, dispatching each one (no Peer state changes). -/
def onTransportRtcpPacket (p : Peer) (transportProducer : Nat → Option Nat)
    (packets : List RtcpSubPacket) : List Effect :=
  packets.flatMap (handleRtcpSubPacket p transportProducer)

/-- Outcome of the per-transport consumer/producer loops of
`Peer::SendRtcp`: accumulated builder state, the effects emitted so far,
and whether the loop executed one of the two `return` statements
(Peer.cpp:677,705), aborting the whole tick. -/
structure RtcpLoopOut where
  packet : CompoundPacket
  trace : List Effect
  aborted : Bool

/-- Consumer loop of one `SendRtcp` transport iteration (Peer.cpp:660):
skip Consumers bound to other Transports; append the Consumer's RTCP; if
the builder now holds a Sender Report, send it as its own compound — unless
its size exceeds the fixed buffer, in which case warn and `return` out of
`SendRtcp` entirely. -/
def sendRtcpConsumers (bufferSize : Nat) (now : Nat) (tid : Nat) :
    List (Nat × Consumer) → CompoundPacket → RtcpLoopOut
  | [], pk => { packet := pk, trace := [], aborted := false }
  | kc :: rest, pk =>
      if kc.2.transport ≠ some tid then sendRtcpConsumers bufferSize now tid rest pk
      else
        let pk1 := kc.2.getRtcp now pk
        if pk1.senderReportCount ≠ 0 then
          if bufferSize < pk1.size then
            { packet := pk1, trace := [Effect.warnRtcpTooBig pk1.size], aborted := true }
          else
            let r := sendRtcpConsumers bufferSize now tid rest CompoundPacket.empty
            { r with trace := Effect.sendRtcpCompound tid :: r.trace }
        else sendRtcpConsumers bufferSize now tid rest pk1

/-- Producer loop of one `SendRtcp` transport iteration (Peer.cpp:687):
append receiver-report chunks of the Producers bound to this Transport. -/
def sendRtcpProducers (now : Nat) (tid : Nat) :
    List (Nat × Producer) → CompoundPacket → CompoundPacket
  | [], pk => pk
  | kp :: rest, pk =>
      if kp.2.transport ≠ some tid then sendRtcpProducers now tid rest pk
      else sendRtcpProducers now tid rest (kp.2.getRtcp now pk)

/-- Transport loop of `Peer::SendRtcp` (Peer.cpp:655): fresh builder per
Transport; consumers, then producers; send the final compound when it
holds a Receiver Report — again aborting the whole tick with a warning
when it exceeds the buffer. -/
def sendRtcpTransports (bufferSize : Nat) (p : Peer) (now : Nat) :
    List (Nat × Transport) → List Effect × Bool
  | [] => ([], false)
  | kt :: rest =>
      let c := sendRtcpConsumers bufferSize now kt.1 p.consumers CompoundPacket.empty
      if c.aborted then (c.trace, true)
      else
        let pk2 := sendRtcpProducers now kt.1 p.producers c.packet
        if pk2.receiverReportCount ≠ 0 then
          if bufferSize < pk2.size then
            (c.trace ++ [Effect.warnRtcpTooBig pk2.size], true)
          else
            let r := sendRtcpTransports bufferSize p now rest
            (c.trace ++ [Effect.sendRtcpCompound kt.1] ++ r.1, r.2)
        else
          let r := sendRtcpTransports bufferSize p now rest
          (c.trace ++ r.1, r.2)

/-- `Peer::SendRtcp(now)` (Peer.cpp:646).  `bufferSize` is the fixed RTCP
send buffer capacity `RTC::RTCP::BufferSize` (a constant of an RTCP header
outside this file, kept as a parameter). -/
def sendRtcp (bufferSize : Nat) (p : Peer) (now : Nat) : List Effect :=
  (sendRtcpTransports bufferSize p now p.transports).1

/-- Fuel-driven floor of the base-2 logarithm: `natLog2F f n` halves `n`
at most `f` times.  With enough fuel it computes the exponent of the
binade containing `n`. -/
def natLog2F : Nat → Nat → Nat
  | 0, _ => 0
  | f + 1, n => if 2 ≤ n then natLog2F f (n / 2) + 1 else 0

/-- Fuel-driven search for the least `t` with `b ≤ a * 2 ^ t` (used for
values below 1 when normalizing a positive rational into its binade). -/
def scaleUpF : Nat → Nat → Nat → Nat
  | 0, _, _ => 0
  | f + 1, a, b => if b ≤ a then 0 else scaleUpF f (2 * a) b + 1

/-- Nearest integer to `na / nb`, ties to even — the rounding used by IEEE
binary arithmetic in its default mode. -/
def roundNE (na nb : Nat) : Nat :=
  let q := na / nb
  let r := na % nb
  if 2 * r < nb then q
  else if nb < 2 * r then q + 1
  else if q % 2 = 0 then q else q + 1

/-- Round the positive rational `a / b` to the nearest IEEE binary32 value
(round-to-nearest, ties-to-even), returned as an exact rational pair
`(num, den)` with `den` a power of two: the float's 24-bit significand is
the nearest integer to `(a / b) * 2 ^ (23 - k)` where `2 ^ k ≤ a / b <
2 ^ (k + 1)`.  Both zero arguments map to zero. -/
def round32 (a b : Nat) : Nat × Nat :=
  if a = 0 then (0, 1)
  else if b = 0 then (0, 1)
  else if b ≤ a then
    let k := natLog2F (a / b) (a / b)
    if k ≤ 23 then (roundNE (a * 2 ^ (23 - k)) b, 2 ^ (23 - k))
    else (roundNE a (b * 2 ^ (k - 23)) * 2 ^ (k - 23), 1)
  else
    let t := scaleUpF b a b
    (roundNE (a * 2 ^ (23 + t)) b, 2 ^ (23 + t))

/-- The jitter multiply of `Peer::OnTimer` (Peer.cpp:1197):
`interval *= static_cast<float>(j) / 10` with `j = GetRandomUInt(5, 15)`.
`j` converts to binary32 exactly; the division by 10 rounds once; the
product `interval * factor` rounds once (exact for `interval < 2 ^ 24`,
which the caller guarantees since `interval ≤ MaxVideoIntervalMs`); the
assignment back to `uint64_t` truncates toward zero. -/
def jitterFloat (interval j : Nat) : Nat :=
  let f := round32 j 10
  let p := round32 (interval * f.1) f.2
  p.1 / p.2

/-- The `uint32_t rate` accumulation of `Peer::OnTimer` (Peer.cpp:1174):
sum over all Consumers of `GetTransmissionRate(now) / 1000`, wrapping at
2^32 as the C++ accumulator does. -/
def rtcpRateSum (consumers : List (Nat × Consumer)) (now : Nat) : Nat :=
  consumers.foldl (fun acc kc => (acc + kc.2.transmissionRate now / 1000) % 2 ^ 32) 0

/-- The deterministic part of the interval computation of `Peer::OnTimer`
(Peer.cpp:1165): start from the maximum video interval; when Consumers
exist and their summed kbps rate is non-zero, use `360000 / rate`; clamp
at the maximum.  `maxVideoIntervalMs` is `RTC::RTCP::MaxVideoIntervalMs`,
a constant of an RTCP header outside this file, kept as a parameter. -/
def baseInterval (maxVideoIntervalMs : Nat) (p : Peer) (now : Nat) : Nat :=
  if p.consumers.isEmpty then maxVideoIntervalMs
  else
    let rate := rtcpRateSum p.consumers now
    let interval := if rate ≠ 0 then 360000 / rate else maxVideoIntervalMs
    if maxVideoIntervalMs < interval then maxVideoIntervalMs else interval

/-- The interval `Peer::OnTimer` re-arms the timer with (Peer.cpp:1198),
given the drawn random integer `j ∈ [5, 15]`. -/
def onTimerInterval (maxVideoIntervalMs : Nat) (p : Peer) (now j : Nat) : Nat :=
  jitterFloat (baseInterval maxVideoIntervalMs p now) j

/-- `Peer::OnTimer` (Peer.cpp:1163): send this tick's RTCP, then re-arm
the timer with the jittered recomputed interval. -/
def onTimer (bufferSize maxVideoIntervalMs : Nat) (p : Peer) (now j : Nat) :
    List Effect × Nat :=
  (sendRtcp bufferSize p now, onTimerInterval maxVideoIntervalMs p now j)

/-! Concrete collaborator oracles and Peer states used by the closed
scenarios below (the spec's S1–S6 style fixtures). -/

/-- Benign collaborator behaviour: parsing succeeds, Transport
construction succeeds, the three valid kind strings are recognized,
`AddProducer` does not throw. -/
def envOk : Env :=
  { parseCapabilities := fun _ => Except.ok { tag := 1 },
    reduceCapabilities := id,
    newTransport := fun _ _ => Except.ok { remb := false },
    getKind := fun s =>
      if s = "audio" then Except.ok MediaKind.AUDIO
      else if s = "video" then Except.ok MediaKind.VIDEO
      else if s = "depth" then Except.ok MediaKind.DEPTH
      else Except.error ("unknown kind"),
    addProducer := fun _ _ => none }

/-- Collaborator behaviour where `Transport::AddProducer` throws. -/
def envAddProducerThrows : Env :=
  { envOk with addProducer := fun _ _ => some ("no suitable Producer codecs") }

/-- A Consumer with no RTP parameters and inert collaborator behaviour. -/
def blankConsumer (id : Nat) : Consumer :=
  { consumerId := id, kind := MediaKind.VIDEO, active := true, parameters := none,
    transport := none, transmissionRate := fun _ => 0, getRtcp := fun _ pk => pk }

/-- A Producer with inert collaborator behaviour. -/
def blankProducer (id : Nat) : Producer :=
  { producerId := id, kind := MediaKind.VIDEO, transport := none,
    getRtcp := fun _ pk => pk }

/-- An empty Peer. -/
def blankPeer : Peer :=
  { peerId := 1, peerName := "alice", hasCapabilities := false,
    capabilities := { tag := 0 }, transports := [], producers := [], consumers := [] }

/-- Peer for the missing-kind scenario: capabilities set, Transport 10
present, no Producer 100 yet. -/
def c1Peer : Peer :=
  { blankPeer with hasCapabilities := true, capabilities := { tag := 1 },
                   transports := [(10, { remb := false })] }

/-- PEER_CREATE_PRODUCER request whose `data` lacks a string `kind`. -/
def c1Req : Request :=
  { methodId := MethodId.PEER_CREATE_PRODUCER, transportIdField := some 10,
    producerIdField := some 100, consumerIdField := none, kindField := none }

/-- Peer with a single Consumer transmitting 120 Mbit/s (120000 kbps), so
the base RTCP interval computes to `360000 / 120000 = 3` ms. -/
def c2Peer : Peer :=
  { blankPeer with
      consumers := [(200, { (blankConsumer 200) with transmissionRate := fun _ => 120000000 })] }

/-- Spec scenario S5: two Consumers at 500 kbps and 1500 kbps, so the base
interval computes to `360000 / 2000 = 180` ms. -/
def c2PeerS5 : Peer :=
  { blankPeer with
      consumers :=
        [(200, { (blankConsumer 200) with transmissionRate := fun _ => 500000 }),
         (201, { (blankConsumer 201) with transmissionRate := fun _ => 1500000 })] }

/-- Consumer on Transport 1 whose RTCP contribution is a Sender Report of
101 bytes — one byte over the 100-byte buffer used in the scenario. -/
def c3OversizeConsumer : Consumer :=
  { (blankConsumer 30) with
      transport := some 1,
      getRtcp := fun _ pk =>
        { pk with senderReportCount := pk.senderReportCount + 1, size := pk.size + 101 } }

/-- Producer on Transport 2 contributing a small Receiver Report. -/
def c3Producer : Producer :=
  { (blankProducer 40) with
      transport := some 2,
      getRtcp := fun _ pk =>
        { pk with receiverReportCount := pk.receiverReportCount + 1, size := pk.size + 50 } }

/-- Two Transports; the Consumer on Transport 1 produces an oversized
compound, the Producer on Transport 2 a small one. -/
def c3Peer : Peer :=
  { blankPeer with transports := [(1, { remb := false }), (2, { remb := false })],
                   producers := [(40, c3Producer)],
                   consumers := [(30, c3OversizeConsumer)] }

/-- The same Peer without the oversized Consumer. -/
def c3PeerQuiet : Peer :=
  { c3Peer with consumers := [] }

/-- An active video Consumer claiming primary SSRC 777. -/
def c4Consumer : Consumer :=
  { (blankConsumer 200) with
      parameters := some { encodings :=
        [{ ssrc := 777, hasFec := false, fecSsrc := 0, hasRtx := false, rtxSsrc := 0 }] } }

/-- Peer owning the active Consumer 200 (SSRC 777). -/
def c4Peer : Peer :=
  { blankPeer with consumers := [(200, c4Consumer)] }

/-- An inactive Consumer claiming primary SSRC 888 (for the NACK and
inactive-PLI scenarios). -/
def c10Consumer : Consumer :=
  { (blankConsumer 300) with
      active := false,
      parameters := some { encodings :=
        [{ ssrc := 888, hasFec := false, fecSsrc := 0, hasRtx := false, rtxSsrc := 0 }] } }

/-- Peer owning the inactive Consumer 300 (SSRC 888). -/
def c10Peer : Peer :=
  { blankPeer with consumers := [(300, c10Consumer)] }

/-- Peer for the PRODUCER_SET_TRANSPORT scenarios: Producer 100 currently
on Transport 10 (REMB enabled), target Transport 11 (REMB disabled). -/
def c7Peer : Peer :=
  { blankPeer with
      hasCapabilities := true,
      transports := [(10, { remb := true }), (11, { remb := false })],
      producers := [(100, { (blankProducer 100) with transport := some 10 })] }

/-- PRODUCER_SET_TRANSPORT request moving Producer 100 to Transport 11. -/
def c7Req : Request :=
  { methodId := MethodId.PRODUCER_SET_TRANSPORT, transportIdField := some 11,
    producerIdField := some 100, consumerIdField := none, kindField := none }

/-- PEER_SET_CAPABILITIES request (payload seen only by the oracle). -/
def c8Req : Request :=
  { methodId := MethodId.PEER_SET_CAPABILITIES, transportIdField := none,
    producerIdField := none, consumerIdField := none, kindField := none }

/-- Spec scenario S6: a Peer holding 2 Transports, 3 Producers and
4 Consumers. -/
def c9Peer : Peer :=
  { blankPeer with
      transports := [(1, { remb := false }), (2, { remb := false })],
      producers := [(10, blankProducer 10), (11, blankProducer 11), (12, blankProducer 12)],
      consumers := [(20, blankConsumer 20), (21, blankConsumer 21),
                    (22, blankConsumer 22), (23, blankConsumer 23)] }

/-! ## Theorems -/

/-- Looking up a key right after insert-or-assign yields the new value. -/
theorem lookupA_insertA_self {α : Type} (l : List (Nat × α)) (k : Nat) (v : α) :
    lookupA (insertA l k v) k = some v := by
  induction l with
  | nil => simp [insertA, lookupA]
  | cons kv rest ih =>
      by_cases h : kv.1 = k
      · simp [insertA, lookupA, h]
      · simp [insertA, lookupA, h, ih]

/-- The inner encoding loop of `GetConsumer` is the `any` of the per-
encoding match predicate. -/
theorem encodingsClaimSsrc_eq_any (ssrc : Nat) (l : List RtpEncoding) :
    encodingsClaimSsrc ssrc l =
      l.any (fun e =>
        (e.ssrc == ssrc) || (e.hasFec && (e.fecSsrc == ssrc))
          || (e.hasRtx && (e.rtxSsrc == ssrc))) := by
  induction l with
  | nil => rfl
  | cons e rest ih =>
      simp only [encodingsClaimSsrc, List.any_cons, ih]
      split_ifs with h1 h2 h3 <;> simp_all

/-- The consumer loop of `GetConsumer` returns the first Consumer claiming
the SSRC, in map iteration order. -/
theorem getConsumerLoop_eq_find (ssrc : Nat) (l : List (Nat × Consumer)) :
    getConsumerLoop ssrc l =
      (l.find? fun kc => consumerClaimsSsrc ssrc kc.2).map Prod.snd := by
  induction l with
  | nil => rfl
  | cons kc rest ih =>
      cases h : kc.2.parameters with
      | none =>
          simp [getConsumerLoop, List.find?, consumerClaimsSsrc, h, ih]
      | some ps =>
          by_cases hc : encodingsClaimSsrc ssrc ps.encodings = true
          · have : consumerClaimsSsrc ssrc kc.2 = true := by
              simp [consumerClaimsSsrc, h, ← encodingsClaimSsrc_eq_any, hc]
            simp [getConsumerLoop, List.find?, h, hc, this]
          · have : consumerClaimsSsrc ssrc kc.2 = false := by
              simp [consumerClaimsSsrc, h, ← encodingsClaimSsrc_eq_any]
              simpa using hc
            simp [getConsumerLoop, List.find?, h, hc, this, ih]

/-- C5: for every ssrc, `GetConsumer(ssrc)` returns the first Consumer, in
consumer-map iteration order, one of whose encodings matches the ssrc —
an encoding matches if the ssrc equals its primary ssrc, or (when it has
FEC) its FEC ssrc, or (when it has RTX) its RTX ssrc — and returns
nothing when no Consumer claims the ssrc. -/
theorem c5_getConsumer_first_match (p : Peer) (ssrc : Nat) :
    p.getConsumer ssrc =
      (p.consumers.find? fun kc => consumerClaimsSsrc ssrc kc.2).map Prod.snd ∧
    (p.getConsumer ssrc = none ↔
      ∀ kc ∈ p.consumers, consumerClaimsSsrc ssrc kc.2 = false) := by
  refine ⟨getConsumerLoop_eq_find ssrc p.consumers, ?_⟩
  rw [Peer.getConsumer, getConsumerLoop_eq_find ssrc p.consumers]
  simp [List.find?_eq_none]

/-- C4: for every PSFB sub-packet of message type PLI, SLI, RPSI or FIR,
the Consumer is looked up by the feedback's media ssrc; when no Consumer
is found a warning is logged and no up-call is made; when the Consumer is
found but inactive the packet is dropped silently; otherwise
`OnPeerRtcpFeedback` is invoked exactly once on the listener with that
Consumer. -/
theorem c4_psfb_dispatch (p : Peer) (tpt : Nat → Option Nat) (mt : PsMessageType)
    (rb : Bool) (ssrc : Nat)
    (hmt : mt = PsMessageType.PLI ∨ mt = PsMessageType.SLI ∨
      mt = PsMessageType.RPSI ∨ mt = PsMessageType.FIR) :
    (p.getConsumer ssrc = none →
      handleRtcpSubPacket p tpt (RtcpSubPacket.psfb mt rb ssrc) =
        [Effect.warnNoConsumerForPsFeedback ssrc]) ∧
    (∀ c, p.getConsumer ssrc = some c → c.active = false →
      handleRtcpSubPacket p tpt (RtcpSubPacket.psfb mt rb ssrc) = []) ∧
    (∀ c, p.getConsumer ssrc = some c → c.active = true →
      (handleRtcpSubPacket p tpt (RtcpSubPacket.psfb mt rb ssrc)).count
          (Effect.onPeerRtcpFeedback c.consumerId) = 1 ∧
      handleRtcpSubPacket p tpt (RtcpSubPacket.psfb mt rb ssrc) =
        (if mt = PsMessageType.PLI then [Effect.debugPliReceived ssrc] else [])
          ++ [Effect.onPeerRtcpFeedback c.consumerId]) := by
  rcases hmt with rfl | rfl | rfl | rfl <;>
    refine ⟨fun hn => ?_, fun c hc ha => ?_, fun c hc ha => ⟨?_, ?_⟩⟩ <;>
    simp [handleRtcpSubPacket, handlePsFeedback, List.count_cons, *]

/-- C4 witness: in the concrete Peer owning active Consumer 200 with SSRC
777, a PLI for media ssrc 777 produces exactly one `OnPeerRtcpFeedback`
up-call for Consumer 200. -/
theorem c4_psfb_dispatch_witness :
    (handleRtcpSubPacket c4Peer (fun _ => none)
        (RtcpSubPacket.psfb PsMessageType.PLI false 777)).count
      (Effect.onPeerRtcpFeedback c4Consumer.consumerId) = 1 :=
  ((c4_psfb_dispatch c4Peer (fun _ => none) PsMessageType.PLI false 777
      (Or.inl rfl)).2.2 c4Consumer rfl rfl).1

/-- C10: an RTPFB NACK whose media ssrc resolves to a Consumer is
delivered to that Consumer via `ReceiveNack` — with no condition on the
Consumer's `active` flag, unlike the PLI/SLI/RPSI/FIR branch. -/
theorem c10_nack_ignores_active (p : Peer) (tpt : Nat → Option Nat) (ssrc : Nat)
    (c : Consumer) (hc : p.getConsumer ssrc = some c) :
    handleRtcpSubPacket p tpt (RtcpSubPacket.rtpfb RtpMessageType.NACK ssrc) =
      [Effect.receiveNack c.consumerId] := by
  simp [handleRtcpSubPacket, hc]

/-- C10 witness: the concrete Consumer 300 is inactive, yet the NACK for
its SSRC 888 is still delivered to it. -/
theorem c10_nack_ignores_active_witness :
    c10Consumer.active = false ∧
    handleRtcpSubPacket c10Peer (fun _ => none)
        (RtcpSubPacket.rtpfb RtpMessageType.NACK 888) =
      [Effect.receiveNack c10Consumer.consumerId] :=
  ⟨rfl, c10_nack_ignores_active c10Peer (fun _ => none) 888 c10Consumer rfl⟩

/-- C6: in PRODUCER_SET_TRANSPORT, `Transport::AddProducer` is invoked
before the Producer's transport pointer is updated; hence when
`AddProducer` throws, the request is rejected and the Peer state — in
particular the Producer's Transport reference — is exactly as before the
request; on success the `AddProducer` call precedes the pointer update in
the effect trace. -/
theorem c6_set_transport_exception_safety (env : Env) (p : Peer) (req : Request)
    (pid : Nat) (producer : Producer) (tid : Nat) (t : Transport)
    (hm : req.methodId = MethodId.PRODUCER_SET_TRANSPORT)
    (hp : getProducerFromRequest p req = Except.ok (pid, some producer))
    (ht : getTransportFromRequest p req = Except.ok (tid, some t)) :
    (∀ e, env.addProducer tid pid = some e →
      handleRequest env p req =
        Outcome.ok p [Effect.addProducerCall tid pid, Effect.reject e]) ∧
    (env.addProducer tid pid = none →
      ∃ p2 rembTrace, handleRequest env p req =
        Outcome.ok p2 ([Effect.addProducerCall tid pid] ++ rembTrace
          ++ [Effect.producerSetTransport pid tid, Effect.accept]) ∧
        lookupA p2.producers pid = some { producer with transport := some tid }) := by
  constructor
  · intro e he
    simp [handleRequest, hm, handleProducerSetTransport, hp, ht, he]
  · intro he
    cases hpt : producer.transport with
    | none =>
        refine ⟨{ p with
                    producers := insertA p.producers pid
                      { producer with transport := some tid } }, [], ?_,
                lookupA_insertA_self ..⟩
        simp [handleRequest, hm, handleProducerSetTransport, hp, ht, he, hpt]
    | some prevTid =>
        cases hlk : lookupA p.transports prevTid with
        | none =>
            refine ⟨{ p with
                        producers := insertA p.producers pid
                          { producer with transport := some tid } }, [], ?_,
                    lookupA_insertA_self ..⟩
            simp [handleRequest, hm, handleProducerSetTransport, hp, ht, he, hpt, hlk]
        | some prevT =>
            cases hremb : prevT.remb with
            | false =>
                refine ⟨{ p with
                            producers := insertA p.producers pid
                              { producer with transport := some tid } }, [], ?_,
                        lookupA_insertA_self ..⟩
                simp [handleRequest, hm, handleProducerSetTransport, hp, ht, he,
                  hpt, hlk, hremb]
            | true =>
                refine ⟨{ p with
                            transports := insertA p.transports tid { t with remb := true },
                            producers := insertA p.producers pid
                              { producer with transport := some tid } },
                        [Effect.enableRemb tid], ?_, lookupA_insertA_self ..⟩
                simp [handleRequest, hm, handleProducerSetTransport, hp, ht, he,
                  hpt, hlk, hremb]

/-- C6 witness: with the throwing `AddProducer` oracle, moving Producer
100 of the concrete Peer to Transport 11 is rejected with the thrown
reason and leaves the Peer state unchanged. -/
theorem c6_set_transport_exception_safety_witness :
    handleRequest envAddProducerThrows c7Peer c7Req =
      Outcome.ok c7Peer
        [Effect.addProducerCall 11 100, Effect.reject ("no suitable Producer codecs")] :=
  (c6_set_transport_exception_safety envAddProducerThrows c7Peer c7Req 100
      { (blankProducer 100) with transport := some 10 } 11 { remb := false }
      rfl rfl rfl).1 ("no suitable Producer codecs") rfl

/-- C7: on a successful PRODUCER_SET_TRANSPORT, when the Producer's
previous Transport had REMB enabled, REMB is enabled on the new Transport
(the `EnableRemb` effect precedes the pointer update in the trace, and the
stored target Transport ends with `remb = true`); when there was no
previous Transport or it had no REMB, `EnableRemb` is not called. -/
theorem c7_remb_carry_over (env : Env) (p : Peer) (req : Request)
    (pid : Nat) (producer : Producer) (tid : Nat) (t : Transport)
    (hm : req.methodId = MethodId.PRODUCER_SET_TRANSPORT)
    (hp : getProducerFromRequest p req = Except.ok (pid, some producer))
    (ht : getTransportFromRequest p req = Except.ok (tid, some t))
    (hok : env.addProducer tid pid = none) :
    (∀ prevTid prevT, producer.transport = some prevTid →
        lookupA p.transports prevTid = some prevT → prevT.remb = true →
      handleRequest env p req =
        Outcome.ok
          { p with transports := insertA p.transports tid { t with remb := true },
                   producers := insertA p.producers pid { producer with transport := some tid } }
          [Effect.addProducerCall tid pid, Effect.enableRemb tid,
           Effect.producerSetTransport pid tid, Effect.accept]) ∧
    ((match producer.transport with
        | some prevTid =>
            match lookupA p.transports prevTid with
            | some prevT => prevT.remb
            | none => false
        | none => false) = false →
      handleRequest env p req =
        Outcome.ok
          { p with producers := insertA p.producers pid { producer with transport := some tid } }
          [Effect.addProducerCall tid pid,
           Effect.producerSetTransport pid tid, Effect.accept]) := by
  constructor
  · intro prevTid prevT hprev hlook hremb
    simp [handleRequest, hm, handleProducerSetTransport, hp, ht, hok, hprev, hlook, hremb]
  · intro hnone
    simp [handleRequest, hm, handleProducerSetTransport, hp, ht, hok, hnone]

/-- C7 witness: moving Producer 100 from REMB-enabled Transport 10 to
Transport 11 enables REMB on Transport 11 before the pointer update. -/
theorem c7_remb_carry_over_witness :
    handleRequest envOk c7Peer c7Req =
      Outcome.ok
        { c7Peer with
            transports := insertA c7Peer.transports 11 { remb := true },
            producers := insertA c7Peer.producers 100
              { (blankProducer 100) with transport := some 11 } }
        [Effect.addProducerCall 11 100, Effect.enableRemb 11,
         Effect.producerSetTransport 100 11, Effect.accept] :=
  (c7_remb_carry_over envOk c7Peer c7Req 100
      { (blankProducer 100) with transport := some 10 } 11 { remb := false }
      rfl rfl rfl rfl).1 10 { remb := true } rfl rfl rfl

/-- C8: PEER_SET_CAPABILITIES rejects whenever `hasCapabilities` is
already set — so the second of two successive such requests rejects —
and otherwise parses (rejecting on a parse error), stores the reduced
capabilities, notifies the Room listener, and accepts only after the
notification (`OnPeerCapabilities` precedes `accept` in the trace). -/
theorem c8_capabilities_set_once (env : Env) (p : Peer) (req : Request)
    (hm : req.methodId = MethodId.PEER_SET_CAPABILITIES) :
    (p.hasCapabilities = true →
      handleRequest env p req =
        Outcome.ok p [Effect.reject ("peer capabilities already set")]) ∧
    (p.hasCapabilities = false →
      (∀ e, env.parseCapabilities req = Except.error e →
        handleRequest env p req = Outcome.ok p [Effect.reject e]) ∧
      (∀ caps, env.parseCapabilities req = Except.ok caps →
        handleRequest env p req =
          Outcome.ok
            { p with hasCapabilities := true,
                     capabilities := env.reduceCapabilities caps }
            [Effect.onPeerCapabilities, Effect.accept] ∧
        (∀ req2, req2.methodId = MethodId.PEER_SET_CAPABILITIES →
          handleRequest env
              { p with hasCapabilities := true,
                       capabilities := env.reduceCapabilities caps } req2 =
            Outcome.ok
              { p with hasCapabilities := true,
                       capabilities := env.reduceCapabilities caps }
              [Effect.reject ("peer capabilities already set")]))) := by
  refine ⟨fun hset => ?_, fun hunset => ⟨fun e he => ?_, fun caps hcaps => ⟨?_, ?_⟩⟩⟩
  · simp [handleRequest, hm, handleSetCapabilities, hset]
  · simp [handleRequest, hm, handleSetCapabilities, hunset, he]
  · simp [handleRequest, hm, handleSetCapabilities, hunset, hcaps]
  · intro req2 hm2
    simp [handleRequest, hm2, handleSetCapabilities]

/-- C8 witness: spec scenario S1 — on the fresh Peer the first
PEER_SET_CAPABILITIES notifies then accepts; the second rejects. -/
theorem c8_capabilities_set_once_witness :
    handleRequest envOk blankPeer c8Req =
      Outcome.ok
        { blankPeer with hasCapabilities := true, capabilities := { tag := 1 } }
        [Effect.onPeerCapabilities, Effect.accept] ∧
    handleRequest envOk
        { blankPeer with hasCapabilities := true, capabilities := { tag := 1 } } c8Req =
      Outcome.ok
        { blankPeer with hasCapabilities := true, capabilities := { tag := 1 } }
        [Effect.reject ("peer capabilities already set")] :=
  ((c8_capabilities_set_once envOk blankPeer c8Req rfl).2 rfl).2 { tag := 1 } rfl
    |>.imp id (fun h => h c8Req rfl)

/-- The destruction cascade emits no request response. -/
theorem responseCount_destroyChildren {α : Type} (mk : Nat → Effect)
    (hmk : ∀ i, isResponse (mk i) = false) (l : List (Nat × α)) :
    (destroyChildren mk l).countP isResponse = 0 := by
  induction l with
  | nil => rfl
  | cons kv rest ih => simp [destroyChildren, List.countP_cons, hmk, ih]

/-- The `Destroy` trace emits no request response. -/
theorem responseCount_destroy (p : Peer) : responseCount p.destroy.2 = 0 := by
  simp [Peer.destroy, responseCount, List.countP_append, List.countP_cons,
    responseCount_destroyChildren, isResponse]

/-- `PEER_CLOSE` responds exactly once. -/
theorem responseCount_handlePeerClose (p : Peer) :
    ∃ st tr, handlePeerClose p = Outcome.ok st tr ∧ responseCount tr = 1 := by
  refine ⟨_, _, rfl, ?_⟩
  have h := responseCount_destroy p
  unfold responseCount at h
  simp [responseCount, List.countP_append, List.countP_cons, isResponse, h]

/-- `PEER_SET_CAPABILITIES` responds exactly once. -/
theorem responseCount_handleSetCapabilities (env : Env) (p : Peer) (req : Request) :
    ∃ st tr, handleSetCapabilities env p req = Outcome.ok st tr ∧ responseCount tr = 1 := by
  unfold handleSetCapabilities
  split
  · exact ⟨_, _, rfl, rfl⟩
  · split <;> exact ⟨_, _, rfl, rfl⟩

/-- `PEER_CREATE_TRANSPORT` responds exactly once. -/
theorem responseCount_handleCreateTransport (env : Env) (p : Peer) (req : Request) :
    ∃ st tr, handleCreateTransport env p req = Outcome.ok st tr ∧ responseCount tr = 1 := by
  unfold handleCreateTransport
  split
  · exact ⟨_, _, rfl, rfl⟩
  · exact ⟨_, _, rfl, rfl⟩
  · split <;> exact ⟨_, _, rfl, rfl⟩

/-- `PEER_CREATE_PRODUCER` responds exactly once — except on the
missing-kind path, where it throws with no response and no state change. -/
theorem handleCreateProducer_cases (env : Env) (p : Peer) (req : Request) :
    (∃ st tr, handleCreateProducer env p req = Outcome.ok st tr ∧ responseCount tr = 1) ∨
    (handleCreateProducer env p req = Outcome.thrown ("missing kind") p [] ∧
      req.kindField = none) := by
  unfold handleCreateProducer
  split
  · exact Or.inl ⟨_, _, rfl, rfl⟩
  · split
    · exact Or.inl ⟨_, _, rfl, rfl⟩
    · exact Or.inl ⟨_, _, rfl, rfl⟩
    · split
      · exact Or.inl ⟨_, _, rfl, rfl⟩
      · exact Or.inl ⟨_, _, rfl, rfl⟩
      · split
        · next hkind => exact Or.inr ⟨rfl, hkind⟩
        · split
          · exact Or.inl ⟨_, _, rfl, rfl⟩
          · exact Or.inl ⟨_, _, rfl, rfl⟩

/-- The Transport-delegated arms respond exactly once. -/
theorem responseCount_handleTransportDelegate (p : Peer) (req : Request) :
    ∃ st tr, handleTransportDelegate p req = Outcome.ok st tr ∧ responseCount tr = 1 := by
  unfold handleTransportDelegate
  split <;> exact ⟨_, _, rfl, rfl⟩

/-- The Producer-delegated arms respond exactly once. -/
theorem responseCount_handleProducerDelegate (p : Peer) (req : Request) :
    ∃ st tr, handleProducerDelegate p req = Outcome.ok st tr ∧ responseCount tr = 1 := by
  unfold handleProducerDelegate
  split <;> exact ⟨_, _, rfl, rfl⟩

/-- The Consumer-delegated arms respond exactly once. -/
theorem responseCount_handleConsumerDelegate (p : Peer) (req : Request) :
    ∃ st tr, handleConsumerDelegate p req = Outcome.ok st tr ∧ responseCount tr = 1 := by
  unfold handleConsumerDelegate
  split <;> exact ⟨_, _, rfl, rfl⟩

/-- `PRODUCER_SET_TRANSPORT` responds exactly once. -/
theorem responseCount_handleProducerSetTransport (env : Env) (p : Peer) (req : Request) :
    ∃ st tr, handleProducerSetTransport env p req = Outcome.ok st tr ∧
      responseCount tr = 1 := by
  unfold handleProducerSetTransport
  split
  · exact ⟨_, _, rfl, rfl⟩
  · exact ⟨_, _, rfl, rfl⟩
  · split
    · exact ⟨_, _, rfl, rfl⟩
    · exact ⟨_, _, rfl, rfl⟩
    · split
      · exact ⟨_, _, rfl, rfl⟩
      · refine ⟨_, _, rfl, ?_⟩
        split <;> rfl

/-- `CONSUMER_SET_TRANSPORT` responds exactly once. -/
theorem responseCount_handleConsumerSetTransport (p : Peer) (req : Request) :
    ∃ st tr, handleConsumerSetTransport p req = Outcome.ok st tr ∧
      responseCount tr = 1 := by
  unfold handleConsumerSetTransport
  split
  · exact ⟨_, _, rfl, rfl⟩
  · exact ⟨_, _, rfl, rfl⟩
  · split <;> exact ⟨_, _, rfl, rfl⟩

/-- C1 (amended): every `HandleRequest` invocation either returns normally
having produced exactly one response — an Accept, a Reject, or the
hand-off to the owned entity that performs its own single Accept/Reject —
or, precisely on a PEER_CREATE_PRODUCER whose `data` lacks a string
`kind` and which passes the capability, fresh-producer-id and
existing-transport checks, throws `missing kind` out to its caller with
no response and the Peer state unchanged. -/
theorem c1_amended_response_discipline (env : Env) (p : Peer) (req : Request) :
    (∃ st tr, handleRequest env p req = Outcome.ok st tr ∧ responseCount tr = 1) ∨
    (handleRequest env p req = Outcome.thrown ("missing kind") p [] ∧
      req.methodId = MethodId.PEER_CREATE_PRODUCER ∧ req.kindField = none) := by
  cases hm : req.methodId with
  | PEER_CLOSE => exact Or.inl (by simpa [handleRequest, hm] using responseCount_handlePeerClose p)
  | PEER_DUMP =>
      exact Or.inl ⟨p, [Effect.accept], by simp [handleRequest, hm, handlePeerDump], rfl⟩
  | PEER_SET_CAPABILITIES =>
      exact Or.inl (by simpa [handleRequest, hm] using responseCount_handleSetCapabilities env p req)
  | PEER_CREATE_TRANSPORT =>
      exact Or.inl (by simpa [handleRequest, hm] using responseCount_handleCreateTransport env p req)
  | PEER_CREATE_PRODUCER =>
      rcases handleCreateProducer_cases env p req with h | h
      · exact Or.inl (by simpa [handleRequest, hm] using h)
      · exact Or.inr ⟨by simpa [handleRequest, hm] using h.1, rfl, h.2⟩
  | TRANSPORT_CLOSE =>
      exact Or.inl (by simpa [handleRequest, hm] using responseCount_handleTransportDelegate p req)
  | TRANSPORT_DUMP =>
      exact Or.inl (by simpa [handleRequest, hm] using responseCount_handleTransportDelegate p req)
  | TRANSPORT_SET_REMOTE_DTLS_PARAMETERS =>
      exact Or.inl (by simpa [handleRequest, hm] using responseCount_handleTransportDelegate p req)
  | TRANSPORT_SET_MAX_BITRATE =>
      exact Or.inl (by simpa [handleRequest, hm] using responseCount_handleTransportDelegate p req)
  | TRANSPORT_CHANGE_UFRAG_PWD =>
      exact Or.inl (by simpa [handleRequest, hm] using responseCount_handleTransportDelegate p req)
  | PRODUCER_CLOSE =>
      exact Or.inl (by simpa [handleRequest, hm] using responseCount_handleProducerDelegate p req)
  | PRODUCER_DUMP =>
      exact Or.inl (by simpa [handleRequest, hm] using responseCount_handleProducerDelegate p req)
  | PRODUCER_RECEIVE =>
      exact Or.inl (by simpa [handleRequest, hm] using responseCount_handleProducerDelegate p req)
  | PRODUCER_SET_RTP_RAW_EVENT =>
      exact Or.inl (by simpa [handleRequest, hm] using responseCount_handleProducerDelegate p req)
  | PRODUCER_SET_RTP_OBJECT_EVENT =>
      exact Or.inl (by simpa [handleRequest, hm] using responseCount_handleProducerDelegate p req)
  | PRODUCER_SET_TRANSPORT =>
      exact Or.inl (by simpa [handleRequest, hm] using
        responseCount_handleProducerSetTransport env p req)
  | CONSUMER_DUMP =>
      exact Or.inl (by simpa [handleRequest, hm] using responseCount_handleConsumerDelegate p req)
  | CONSUMER_SET_TRANSPORT =>
      exact Or.inl (by simpa [handleRequest, hm] using
        responseCount_handleConsumerSetTransport p req)
  | CONSUMER_DISABLE =>
      exact Or.inl (by simpa [handleRequest, hm] using responseCount_handleConsumerDelegate p req)
  | OTHER =>
      exact Or.inl ⟨p, [Effect.reject ("unknown method")], by simp [handleRequest, hm], rfl⟩

/-- C1 counterexample: on the concrete Peer with capabilities set,
Transport 10 present and no Producer 100, the PEER_CREATE_PRODUCER
request whose `data` lacks a string `kind` makes `HandleRequest` throw
`missing kind` out to its caller, with neither Accept nor Reject — the
claim says it must reject without propagating an exception. -/
theorem c1_missing_kind_throws_cex :
    handleRequest envOk c1Peer c1Req = Outcome.thrown ("missing kind") c1Peer [] ∧
    c1Peer.hasCapabilities = true ∧
    lookupA c1Peer.producers 100 = none ∧
    lookupA c1Peer.transports 10 = some { remb := false } ∧
    c1Req.kindField = none :=
  ⟨rfl, rfl, rfl, rfl, rfl⟩

/-- Every effect of a destruction loop is a destroy of one child id. -/
theorem destroyChildren_mem {α : Type} (mk : Nat → Effect) (l : List (Nat × α))
    (e : Effect) (h : e ∈ destroyChildren mk l) : ∃ a, e = mk a := by
  induction l with
  | nil => simp [destroyChildren] at h
  | cons kv rest ih =>
      rcases (by simpa [destroyChildren] using h : e = mk kv.1 ∨ e ∈ destroyChildren mk rest) with
        rfl | hrest
      · exact ⟨kv.1, rfl⟩
      · exact ih hrest

/-- A destruction loop destroys each child once, in iteration order. -/
theorem destroyChildren_length {α : Type} (mk : Nat → Effect) (l : List (Nat × α)) :
    (destroyChildren mk l).length = l.length := by
  induction l with
  | nil => rfl
  | cons kv rest ih => simp [destroyChildren, ih]

/-- Split an index into an append of effect lists. -/
theorem get_append_cases (L1 L2 : List Effect) (i : Nat) (e : Effect)
    (h : (L1 ++ L2).get? i = some e) :
    (i < L1.length ∧ L1.get? i = some e) ∨
    (L1.length ≤ i ∧ L2.get? (i - L1.length) = some e) := by
  by_cases hi : i < L1.length
  · exact Or.inl ⟨hi, by rwa [List.get?_append hi] at h⟩
  · exact Or.inr ⟨Nat.le_of_not_lt hi,
      by rwa [List.get?_append_right (Nat.le_of_not_lt hi)] at h⟩

/-- Index past the first list of an append. -/
theorem get_append_length_add (L1 L2 : List Effect) (j : Nat) :
    (L1 ++ L2).get? (L1.length + j) = L2.get? j := by
  rw [List.get?_append_right (Nat.le_add_right _ _)]
  simp

/-- C9: `Peer::Destroy` processes children in strict order — positions
`[0, #producers)` of the effect trace destroy Producers, then
`[#producers, #producers + #consumers)` destroy Consumers, then the
Transports; only after all children are destroyed does the `close`
notification fire, immediately followed by exactly one `OnPeerClosed`
up-call, which ends the trace. -/
theorem c9_destroy_order (p : Peer) :
    (∀ i a, p.destroy.2.get? i = some (Effect.destroyProducer a) →
      i < p.producers.length) ∧
    (∀ i a, p.destroy.2.get? i = some (Effect.destroyConsumer a) →
      p.producers.length ≤ i ∧ i < p.producers.length + p.consumers.length) ∧
    (∀ i a, p.destroy.2.get? i = some (Effect.destroyTransport a) →
      p.producers.length + p.consumers.length ≤ i ∧
        i < p.producers.length + p.consumers.length + p.transports.length) ∧
    p.destroy.2.get? (p.producers.length + p.consumers.length + p.transports.length) =
      some (Effect.notify ("close")) ∧
    p.destroy.2.get?
        (p.producers.length + p.consumers.length + p.transports.length + 1) =
      some Effect.onPeerClosed ∧
    p.destroy.2.length =
      p.producers.length + p.consumers.length + p.transports.length + 2 ∧
    p.destroy.2.count Effect.onPeerClosed = 1 := by
  have htr : p.destroy.2 =
      destroyChildren Effect.destroyProducer p.producers
        ++ (destroyChildren Effect.destroyConsumer p.consumers
          ++ (destroyChildren Effect.destroyTransport p.transports
            ++ [Effect.notify ("close"), Effect.onPeerClosed])) := by
    simp [Peer.destroy, List.append_assoc]
  have hAlen := destroyChildren_length Effect.destroyProducer p.producers
  have hBlen := destroyChildren_length Effect.destroyConsumer p.consumers
  have hClen := destroyChildren_length Effect.destroyTransport p.transports
  rw [htr]
  refine ⟨?_, ?_, ?_, ?_, ?_, ?_, ?_⟩
  · intro i a h
    rcases get_append_cases _ _ _ _ h with ⟨hi, h1⟩ | ⟨hi, h1⟩
    · rw [hAlen] at hi
      exact hi
    · rcases get_append_cases _ _ _ _ h1 with ⟨hj, h2⟩ | ⟨hj, h2⟩
      · rcases destroyChildren_mem _ _ _ (List.get?_mem h2) with ⟨b, hb⟩
        cases hb
      · rcases get_append_cases _ _ _ _ h2 with ⟨hk, h3⟩ | ⟨hk, h3⟩
        · rcases destroyChildren_mem _ _ _ (List.get?_mem h3) with ⟨b, hb⟩
          cases hb
        · have hmem := List.get?_mem h3
          simp at hmem
  · intro i a h
    rcases get_append_cases _ _ _ _ h with ⟨hi, h1⟩ | ⟨hi, h1⟩
    · rcases destroyChildren_mem _ _ _ (List.get?_mem h1) with ⟨b, hb⟩
      cases hb
    · rw [hAlen] at hi
      rcases get_append_cases _ _ _ _ h1 with ⟨hj, h2⟩ | ⟨hj, h2⟩
      · rw [hBlen] at hj
        rw [hAlen] at h2
        constructor
        · exact hi
        · omega
      · rcases get_append_cases _ _ _ _ h2 with ⟨hk, h3⟩ | ⟨hk, h3⟩
        · rcases destroyChildren_mem _ _ _ (List.get?_mem h3) with ⟨b, hb⟩
          cases hb
        · have hmem := List.get?_mem h3
          simp at hmem
  · intro i a h
    rcases get_append_cases _ _ _ _ h with ⟨hi, h1⟩ | ⟨hi, h1⟩
    · rcases destroyChildren_mem _ _ _ (List.get?_mem h1) with ⟨b, hb⟩
      cases hb
    · rw [hAlen] at hi
      rcases get_append_cases _ _ _ _ h1 with ⟨hj, h2⟩ | ⟨hj, h2⟩
      · rcases destroyChildren_mem _ _ _ (List.get?_mem h2) with ⟨b, hb⟩
        cases hb
      · rw [hBlen, hAlen] at hj
        rcases get_append_cases _ _ _ _ h2 with ⟨hk, h3⟩ | ⟨hk, h3⟩
        · rw [hClen, hAlen, hBlen] at hk
          constructor
          · omega
          · omega
        · have hmem := List.get?_mem h3
          simp at hmem
  · have hidx : p.producers.length + p.consumers.length + p.transports.length =
        p.producers.length + (p.consumers.length + (p.transports.length + 0)) := by
      omega
    rw [hidx, ← hAlen, get_append_length_add, ← hBlen, get_append_length_add,
      ← hClen, get_append_length_add]
    rfl
  · have hidx : p.producers.length + p.consumers.length + p.transports.length + 1 =
        p.producers.length + (p.consumers.length + (p.transports.length + 1)) := by
      omega
    rw [hidx, ← hAlen, get_append_length_add, ← hBlen, get_append_length_add,
      ← hClen, get_append_length_add]
    rfl
  · simp only [List.length_append, hAlen, hBlen, hClen, List.length_cons,
      List.length_nil]
    omega
  · have hA : Effect.onPeerClosed ∉ destroyChildren Effect.destroyProducer p.producers := by
      intro hmem
      rcases destroyChildren_mem _ _ _ hmem with ⟨b, hb⟩
      cases hb
    have hB : Effect.onPeerClosed ∉ destroyChildren Effect.destroyConsumer p.consumers := by
      intro hmem
      rcases destroyChildren_mem _ _ _ hmem with ⟨b, hb⟩
      cases hb
    have hC : Effect.onPeerClosed ∉ destroyChildren Effect.destroyTransport p.transports := by
      intro hmem
      rcases destroyChildren_mem _ _ _ hmem with ⟨b, hb⟩
      cases hb
    simp [List.count_append, List.count_eq_zero.mpr hA, List.count_eq_zero.mpr hB,
      List.count_eq_zero.mpr hC, List.count_cons]

/-- C9 witness: spec scenario S6 — destroying the Peer holding
2 Transports, 3 Producers and 4 Consumers ends its trace with the single
`OnPeerClosed` up-call at position 9 (after 3 + 4 + 2 destroys and the
`close` notification). -/
theorem c9_destroy_order_witness :
    c9Peer.destroy.2.get?
        (c9Peer.producers.length + c9Peer.consumers.length + c9Peer.transports.length + 1) =
      some Effect.onPeerClosed ∧
    c9Peer.destroy.2.count Effect.onPeerClosed = 1 :=
  ⟨(c9_destroy_order c9Peer).2.2.2.2.1, (c9_destroy_order c9Peer).2.2.2.2.2.2⟩

/-- In the consumer loop of `SendRtcp`, an oversize warning can only be
the final effect, and only on the aborting path. -/
theorem sendRtcpConsumers_warn (bufferSize now tid : Nat)
    (l : List (Nat × Consumer)) (pk : CompoundPacket) :
    ((sendRtcpConsumers bufferSize now tid l pk).aborted = false →
      ∀ s, Effect.warnRtcpTooBig s ∉ (sendRtcpConsumers bufferSize now tid l pk).trace) ∧
    ((sendRtcpConsumers bufferSize now tid l pk).aborted = true →
      ∃ s tr0, (sendRtcpConsumers bufferSize now tid l pk).trace
          = tr0 ++ [Effect.warnRtcpTooBig s] ∧
        ∀ s2, Effect.warnRtcpTooBig s2 ∉ tr0) := by
  induction l generalizing pk with
  | nil => simp [sendRtcpConsumers]
  | cons kc rest ih =>
      by_cases hskip : kc.2.transport ≠ some tid
      · simpa [sendRtcpConsumers, hskip] using ih pk
      · by_cases hsr : (kc.2.getRtcp now pk).senderReportCount ≠ 0
        · by_cases hbig : bufferSize < (kc.2.getRtcp now pk).size
          · refine ⟨?_, ?_⟩
            · intro hab
              simp [sendRtcpConsumers, hskip, hsr, hbig] at hab
            · intro _
              exact ⟨(kc.2.getRtcp now pk).size, [],
                by simp [sendRtcpConsumers, hskip, hsr, hbig], by simp⟩
          · have hrec := ih CompoundPacket.empty
            refine ⟨?_, ?_⟩
            · intro hab s
              have hab2 : (sendRtcpConsumers bufferSize now tid rest
                  CompoundPacket.empty).aborted = false := by
                simpa [sendRtcpConsumers, hskip, hsr, hbig] using hab
              simp [sendRtcpConsumers, hskip, hsr, hbig]
              exact hrec.1 hab2 s
            · intro hab
              have hab2 : (sendRtcpConsumers bufferSize now tid rest
                  CompoundPacket.empty).aborted = true := by
                simpa [sendRtcpConsumers, hskip, hsr, hbig] using hab
              rcases hrec.2 hab2 with ⟨s, tr0, heq, hno⟩
              refine ⟨s, Effect.sendRtcpCompound tid :: tr0, ?_, ?_⟩
              · simp [sendRtcpConsumers, hskip, hsr, hbig, heq]
              · intro s2
                simp [hno s2]
        · simpa [sendRtcpConsumers, hskip, hsr] using ih (kc.2.getRtcp now pk)

/-- In the transport loop of `SendRtcp`, an oversize warning can only be
the final effect, and only on the aborting path. -/
theorem sendRtcpTransports_warn (bufferSize : Nat) (p : Peer) (now : Nat)
    (l : List (Nat × Transport)) :
    ((sendRtcpTransports bufferSize p now l).2 = false →
      ∀ s, Effect.warnRtcpTooBig s ∉ (sendRtcpTransports bufferSize p now l).1) ∧
    ((sendRtcpTransports bufferSize p now l).2 = true →
      ∃ s tr0, (sendRtcpTransports bufferSize p now l).1
          = tr0 ++ [Effect.warnRtcpTooBig s] ∧
        ∀ s2, Effect.warnRtcpTooBig s2 ∉ tr0) := by
  induction l with
  | nil => simp [sendRtcpTransports]
  | cons kt rest ih =>
      have hc := sendRtcpConsumers_warn bufferSize now kt.1 p.consumers CompoundPacket.empty
      by_cases hab : (sendRtcpConsumers bufferSize now kt.1 p.consumers
          CompoundPacket.empty).aborted = true
      · refine ⟨?_, ?_⟩
        · intro hfalse
          simp [sendRtcpTransports, hab] at hfalse
        · intro _
          rcases hc.2 hab with ⟨s, tr0, heq, hno⟩
          exact ⟨s, tr0, by simp [sendRtcpTransports, hab, heq], hno⟩
      · have hab' : (sendRtcpConsumers bufferSize now kt.1 p.consumers
            CompoundPacket.empty).aborted = false := by
          simpa using hab
        have hcno := hc.1 hab'
        by_cases hrr : (sendRtcpProducers now kt.1 p.producers
            (sendRtcpConsumers bufferSize now kt.1 p.consumers
              CompoundPacket.empty).packet).receiverReportCount ≠ 0
        · by_cases hbig : bufferSize < (sendRtcpProducers now kt.1 p.producers
              (sendRtcpConsumers bufferSize now kt.1 p.consumers
                CompoundPacket.empty).packet).size
          · refine ⟨?_, ?_⟩
            · intro hfalse
              simp [sendRtcpTransports, hab', hrr, hbig] at hfalse
            · intro _
              refine ⟨(sendRtcpProducers now kt.1 p.producers
                    (sendRtcpConsumers bufferSize now kt.1 p.consumers
                      CompoundPacket.empty).packet).size,
                  (sendRtcpConsumers bufferSize now kt.1 p.consumers
                    CompoundPacket.empty).trace, ?_, fun s2 => hcno s2⟩
              simp [sendRtcpTransports, hab', hrr, hbig]
          · refine ⟨?_, ?_⟩
            · intro hfalse s
              have hr : (sendRtcpTransports bufferSize p now rest).2 = false := by
                simpa [sendRtcpTransports, hab', hrr, hbig] using hfalse
              simp [sendRtcpTransports, hab', hrr, hbig]
              exact ⟨hcno s, by simpa using ih.1 hr s⟩
            · intro htrue
              have hr : (sendRtcpTransports bufferSize p now rest).2 = true := by
                simpa [sendRtcpTransports, hab', hrr, hbig] using htrue
              rcases ih.2 hr with ⟨s, tr0, heq, hno⟩
              refine ⟨s, (sendRtcpConsumers bufferSize now kt.1 p.consumers
                  CompoundPacket.empty).trace ++ [Effect.sendRtcpCompound kt.1] ++ tr0,
                ?_, ?_⟩
              · simp [sendRtcpTransports, hab', hrr, hbig, heq]
              · intro s2
                simp [hno s2, hcno s2]
        · refine ⟨?_, ?_⟩
          · intro hfalse s
            have hr : (sendRtcpTransports bufferSize p now rest).2 = false := by
              simpa [sendRtcpTransports, hab', hrr] using hfalse
            simp [sendRtcpTransports, hab', hrr]
            exact ⟨hcno s, by simpa using ih.1 hr s⟩
          · intro htrue
            have hr : (sendRtcpTransports bufferSize p now rest).2 = true := by
              simpa [sendRtcpTransports, hab', hrr] using htrue
            rcases ih.2 hr with ⟨s, tr0, heq, hno⟩
            refine ⟨s, (sendRtcpConsumers bufferSize now kt.1 p.consumers
                CompoundPacket.empty).trace ++ tr0, ?_, ?_⟩
            · simp [sendRtcpTransports, hab', hrr, heq]
            · intro s2
              simp [hno s2, hcno s2]

/-- C3 (amended): `SendRtcp` never errors out and an oversized compound is
skipped with a warning — but the warning ends the tick: whenever the
oversize warning occurs in the trace it is the final effect, so the
remaining Consumers, Producers and Transports of that tick are not
processed (the tick is aborted by `return`, Peer.cpp:677,705). -/
theorem c3_amended_oversize_abort (bufferSize : Nat) (p : Peer) (now : Nat)
    (i s : Nat)
    (h : (sendRtcp bufferSize p now).get? i = some (Effect.warnRtcpTooBig s)) :
    i + 1 = (sendRtcp bufferSize p now).length := by
  have hw := sendRtcpTransports_warn bufferSize p now p.transports
  by_cases hab : (sendRtcpTransports bufferSize p now p.transports).2 = true
  · rcases hw.2 hab with ⟨s1, tr0, heq, hno⟩
    unfold sendRtcp at h ⊢
    rw [heq] at h ⊢
    rcases get_append_cases _ _ _ _ h with ⟨hi, h1⟩ | ⟨hi, h1⟩
    · exact absurd (List.get?_mem h1) (hno s)
    · have h2 := List.get?_eq_some.mp h1
      rcases h2 with ⟨hlt, _⟩
      simp only [List.length_singleton] at hlt
      simp only [List.length_append, List.length_singleton]
      omega
  · have hab' : (sendRtcpTransports bufferSize p now p.transports).2 = false := by
      simpa using hab
    exact absurd (List.get?_mem h) (hw.1 hab' s)

/-- C3 witness for the amended theorem: in the concrete oversize scenario
the warning sits at position 0 and the trace has length 1 — nothing of
the tick follows it. -/
theorem c3_amended_oversize_abort_witness :
    0 + 1 = (sendRtcp 100 c3Peer 0).length :=
  c3_amended_oversize_abort 100 c3Peer 0 0 101 rfl

/-- C3 counterexample: with buffer capacity 100, the Consumer on
Transport 1 builds an oversized (101-byte) Sender-Report compound; the
whole tick stops at the warning, and Transport 2's Receiver-Report
compound — which the very same Peer without that Consumer does send — is
never sent, contradicting the claim that the remaining Consumers,
Producers and Transports of the tick are still processed. -/
theorem c3_oversize_aborts_tick_cex :
    sendRtcp 100 c3Peer 0 = [Effect.warnRtcpTooBig 101] ∧
    sendRtcp 100 c3PeerQuiet 0 = [Effect.sendRtcpCompound 2] :=
  ⟨rfl, rfl⟩

/-- `natLog2F` with enough fuel brackets its argument in its binade. -/
theorem natLog2F_spec : ∀ (f n : Nat), 0 < n → n ≤ 2 ^ f →
    2 ^ natLog2F f n ≤ n ∧ n < 2 ^ (natLog2F f n + 1)
  | 0, n, h0, hle => by
      have hn : n = 1 := by simpa using Nat.le_antisymm hle h0
      subst hn
      simp [natLog2F]
  | f + 1, n, h0, hle => by
      by_cases h2 : 2 ≤ n
      · have hpos : 0 < n / 2 := Nat.div_pos h2 (by norm_num)
        have hpow : (2 : Nat) ^ (f + 1) = 2 * 2 ^ f := by
          rw [pow_succ, Nat.mul_comm]
        have hhalf : n / 2 ≤ 2 ^ f := by
          have h3 : n / 2 ≤ 2 * 2 ^ f / 2 :=
            Nat.div_le_div_right (hpow ▸ hle)
          simpa using h3
        obtain ⟨h1, h1'⟩ := natLog2F_spec f (n / 2) hpos hhalf
        simp only [natLog2F, if_pos h2]
        have hmod := Nat.div_add_mod n 2
        have hm2 : n % 2 < 2 := Nat.mod_lt _ (by norm_num)
        have e1 : (2 : Nat) ^ (natLog2F f (n / 2) + 1) = 2 * 2 ^ natLog2F f (n / 2) := by
          rw [pow_succ, Nat.mul_comm]
        have e2 : (2 : Nat) ^ (natLog2F f (n / 2) + 1 + 1)
            = 2 * 2 ^ (natLog2F f (n / 2) + 1) := by
          rw [pow_succ, Nat.mul_comm]
        omega
      · have hn : n = 1 := by omega
        subst hn
        simp [natLog2F]

/-- `scaleUpF` returns 0 once the target is reached. -/
theorem scaleUpF_of_le (f a b : Nat) (h : b ≤ a) : scaleUpF f a b = 0 := by
  cases f <;> simp [scaleUpF, h]

/-- `scaleUpF` with enough fuel finds the binade of `a / b` below 1: the
least doubling count that reaches `b`, which then overshoots `2 * b` by
less than a factor 2. -/
theorem scaleUpF_spec : ∀ (f a b : Nat), 0 < a → a < b → b ≤ a * 2 ^ f →
    b ≤ a * 2 ^ scaleUpF f a b ∧ a * 2 ^ scaleUpF f a b < 2 * b
  | 0, a, b, _, hab, hle => by
      simp at hle
      omega
  | f + 1, a, b, ha, hab, hle => by
      have hnb : ¬ b ≤ a := by omega
      simp only [scaleUpF, if_neg hnb]
      by_cases h2 : b ≤ 2 * a
      · rw [scaleUpF_of_le f (2 * a) b h2]
        constructor
        · have : a * 2 ^ (0 + 1) = 2 * a := by ring
          omega
        · have : a * 2 ^ (0 + 1) = 2 * a := by ring
          omega
      · have h2a : 2 * a < b := by omega
        have hle2 : b ≤ 2 * a * 2 ^ f := by
          have hr : a * 2 ^ (f + 1) = 2 * a * 2 ^ f := by ring
          omega
        obtain ⟨hL, hR⟩ := scaleUpF_spec f (2 * a) b (by omega) h2a hle2
        have hr : a * 2 ^ (scaleUpF f (2 * a) b + 1)
            = 2 * a * 2 ^ scaleUpF f (2 * a) b := by ring
        omega

/-- `roundNE` is within half a unit of the exact quotient. -/
theorem roundNE_err (na nb : Nat) (hb : 0 < nb) :
    2 * roundNE na nb * nb ≤ 2 * na + nb ∧ 2 * na ≤ 2 * roundNE na nb * nb + nb := by
  unfold roundNE
  simp only []
  have hmod := Nat.div_add_mod na nb
  have hlt : na % nb < nb := Nat.mod_lt _ hb
  obtain ⟨q, hq⟩ : ∃ q, na / nb = q := ⟨_, rfl⟩
  obtain ⟨r, hr⟩ : ∃ r, na % nb = r := ⟨_, rfl⟩
  rw [hq, hr] at hmod ⊢
  rw [hr] at hlt
  subst hmod
  split_ifs with h1 h2 h3 <;> constructor <;> nlinarith [hlt]

/-- `roundNE` is exact on exact quotients. -/
theorem roundNE_exact (na nb : Nat) (hb : 0 < nb) (h : nb ∣ na) :
    roundNE na nb * nb = na := by
  obtain ⟨c, rfl⟩ := h
  unfold roundNE
  have hdiv : nb * c / nb = c := Nat.mul_div_cancel_left c hb
  have hmod : nb * c % nb = 0 := Nat.mul_mod_right nb c
  simp only [hdiv, hmod]
  rw [if_pos (by omega)]
  exact Nat.mul_comm c nb

/-- For positive `a / b < 2 ^ 23`, `round32` rounds at the scale `2 ^ s`
(for some positive `s`) that normalizes the value into `[2 ^ 23, 2 ^ 24)`. -/
theorem round32_eq_cases (a b : Nat) (ha : 0 < a) (hb : 0 < b)
    (hlt : a < 2 ^ 23 * b) :
    ∃ s, 1 ≤ s ∧ round32 a b = (roundNE (a * 2 ^ s) b, 2 ^ s) ∧
      2 ^ 23 * b ≤ a * 2 ^ s ∧ a * 2 ^ s < 2 ^ 24 * b := by
  have ha' : a ≠ 0 := by omega
  have hb' : b ≠ 0 := by omega
  by_cases hba : b ≤ a
  · have hq1 : 0 < a / b := Nat.div_pos hba hb
    have hqf : a / b ≤ 2 ^ (a / b) := le_of_lt (Nat.lt_two_pow _)
    obtain ⟨hk1, hk2⟩ := natLog2F_spec (a / b) (a / b) hq1 hqf
    set k := natLog2F (a / b) (a / b) with hkdef
    have hkb1 : 2 ^ k * b ≤ a := by
      calc 2 ^ k * b ≤ a / b * b := Nat.mul_le_mul_right b hk1
      _ ≤ a := Nat.div_mul_le_self a b
    have hkb2 : a < 2 ^ (k + 1) * b := by
      have h1 : a < b * (a / b + 1) := Nat.lt_mul_div_succ a hb
      have h2 : b * (a / b + 1) ≤ b * 2 ^ (k + 1) :=
        Nat.mul_le_mul_left b (by omega)
      have h3 : b * 2 ^ (k + 1) = 2 ^ (k + 1) * b := Nat.mul_comm _ _
      omega
    have hk23 : k < 23 := by
      have hpow : (2 : Nat) ^ k * b < 2 ^ 23 * b := lt_of_le_of_lt hkb1 hlt
      have : (2 : Nat) ^ k < 2 ^ 23 := lt_of_mul_lt_mul_right hpow (Nat.zero_le b)
      exact (Nat.pow_lt_pow_iff_right (by norm_num)).mp this
    refine ⟨23 - k, by omega, ?_, ?_, ?_⟩
    · simp [round32, ha', hb', hba, ← hkdef, le_of_lt hk23]
    · have hsplit : (2 : Nat) ^ 23 = 2 ^ k * 2 ^ (23 - k) := by
        rw [← pow_add]
        congr 1
        omega
      calc 2 ^ 23 * b = 2 ^ k * b * 2 ^ (23 - k) := by rw [hsplit]; ring
      _ ≤ a * 2 ^ (23 - k) := Nat.mul_le_mul_right _ hkb1
    · have hsplit24 : (2 : Nat) ^ 24 = 2 ^ (k + 1) * 2 ^ (23 - k) := by
        rw [← pow_add]
        congr 1
        omega
      calc a * 2 ^ (23 - k) < 2 ^ (k + 1) * b * 2 ^ (23 - k) :=
        (Nat.mul_lt_mul_right (by positivity)).mpr hkb2
      _ = 2 ^ 24 * b := by rw [hsplit24]; ring
  · have hab : a < b := Nat.lt_of_not_le hba
    have hfuel : b ≤ a * 2 ^ b := by
      calc b ≤ 2 ^ b := le_of_lt (Nat.lt_two_pow b)
      _ ≤ a * 2 ^ b := Nat.le_mul_of_pos_left _ ha
    obtain ⟨hL, hR⟩ := scaleUpF_spec b a b ha hab hfuel
    set t := scaleUpF b a b with htdef
    refine ⟨23 + t, by omega, ?_, ?_, ?_⟩
    · simp [round32, ha', hb', hba, ← htdef]
    · calc 2 ^ 23 * b ≤ 2 ^ 23 * (a * 2 ^ t) := Nat.mul_le_mul_left _ hL
      _ = a * 2 ^ (23 + t) := by rw [pow_add]; ring
    · calc a * 2 ^ (23 + t) = 2 ^ 23 * (a * 2 ^ t) := by rw [pow_add]; ring
      _ < 2 ^ 23 * (2 * b) := (Nat.mul_lt_mul_left (by positivity)).mpr hR
      _ = 2 ^ 24 * b := by
          rw [show (2 : Nat) ^ 24 = 2 ^ 23 * 2 from by norm_num]
          ring

/-- Specification of `round32` in the regime `a / b < 2 ^ 23` (all values
the jitter computation meets): the denominator is a positive power of two
(hence even), it scales the value into `[2 ^ 23, 2 ^ 24)`, and the
numerator is within half an ulp of the exact scaled value. -/
theorem round32_spec (a b : Nat) (ha : 0 < a) (hb : 0 < b) (hlt : a < 2 ^ 23 * b) :
    (∃ e, 1 ≤ e ∧ (round32 a b).2 = 2 ^ e) ∧
    2 ^ 23 * b ≤ a * (round32 a b).2 ∧
    a * (round32 a b).2 < 2 ^ 24 * b ∧
    2 * (round32 a b).1 * b ≤ 2 * (a * (round32 a b).2) + b ∧
    2 * (a * (round32 a b).2) ≤ 2 * (round32 a b).1 * b + b := by
  obtain ⟨s, hs, heq, h1, h2⟩ := round32_eq_cases a b ha hb hlt
  rw [heq]
  exact ⟨⟨s, hs, rfl⟩, h1, h2, (roundNE_err _ b hb).1, (roundNE_err _ b hb).2⟩

/-- `round32` is exact whenever the scaled value is an exact multiple. -/
theorem round32_exact (a b : Nat) (ha : 0 < a) (hb : 0 < b) (hlt : a < 2 ^ 23 * b)
    (hdvd : b ∣ a * (round32 a b).2) :
    (round32 a b).1 * b = a * (round32 a b).2 := by
  obtain ⟨s, _, heq, _, _⟩ := round32_eq_cases a b ha hb hlt
  rw [heq] at hdvd ⊢
  exact roundNE_exact _ b hb hdvd

/-- Transfer of integer division along an exact cross-multiplication. -/
theorem nat_div_eq_of_cross (n d a b : Nat) (hb : 0 < b) (hd : 0 < d)
    (h : n * b = a * d) : n / d = a / b := by
  calc n / d = n * b / (d * b) := by rw [Nat.mul_div_mul_right _ _ hb]
  _ = a * d / (d * b) := by rw [h]
  _ = d * a / (d * b) := by rw [Nat.mul_comm a d]
  _ = a / b := Nat.mul_div_mul_left a b hd

/-- Bounds of the truncated rounded product `base * (c / b)` when the
float factor `c / b` lies in `[0.525, 1.45]` (which covers every jitter
factor from `j ∈ {6, …, 9, 11, …, 14}`): the result stays within
`[⌊base / 2⌋, ⌊3 * base / 2⌋]`. -/
theorem round32_mid_bounds (base c b : Nat) (hbase1 : 1 ≤ base)
    (hbase2 : base ≤ 2 ^ 22) (hb : 0 < b)
    (hc1 : 21 * b ≤ 40 * c) (hc2 : 20 * c ≤ 29 * b) :
    base / 2 ≤ (round32 (base * c) b).1 / (round32 (base * c) b).2 ∧
    2 * ((round32 (base * c) b).1 / (round32 (base * c) b).2) ≤ 3 * base := by
  have hc0 : 0 < c := by omega
  have hcb : c < 2 * b := by omega
  have ha : 0 < base * c := Nat.mul_pos hbase1 hc0
  have hlt : base * c < 2 ^ 23 * b := by
    calc base * c ≤ 2 ^ 22 * c := Nat.mul_le_mul_right c hbase2
    _ < 2 ^ 22 * (2 * b) := (Nat.mul_lt_mul_left (by positivity)).mpr hcb
    _ = 2 ^ 23 * b := by
        rw [show (2 : Nat) ^ 23 = 2 ^ 22 * 2 from by norm_num]
        ring
  obtain ⟨⟨e, he1, hdeq⟩, hsc1, hsc2, herr1, herr2⟩ :=
    round32_spec (base * c) b ha hb hlt
  set n := (round32 (base * c) b).1 with hndef
  set d := (round32 (base * c) b).2 with hddef
  have hd0 : 0 < d := by
    rw [hdeq]
    positivity
  -- the scaled base `A = base * d` is at least 20
  have u1 : 20 * 2 ^ 23 * b ≤ 29 * (base * d) * b := by
    calc 20 * 2 ^ 23 * b = 20 * (2 ^ 23 * b) := by ring
    _ ≤ 20 * (base * c * d) := Nat.mul_le_mul_left _ hsc1
    _ = base * d * (20 * c) := by ring
    _ ≤ base * d * (29 * b) := Nat.mul_le_mul_left _ hc2
    _ = 29 * (base * d) * b := by ring
  have u2 : 20 * 2 ^ 23 ≤ 29 * (base * d) :=
    Nat.le_of_mul_le_mul_right u1 hb
  have hA20 : 20 ≤ base * d := by nlinarith [u2]
  constructor
  · -- lower bound
    have t1 : 42 * (base * d) * b ≤ (80 * n + 40) * b := by
      calc 42 * (base * d) * b = 21 * b * (2 * (base * d)) := by ring
      _ ≤ 40 * c * (2 * (base * d)) := Nat.mul_le_mul_right _ hc1
      _ = 40 * (2 * (base * c * d)) := by ring
      _ ≤ 40 * (2 * n * b + b) := Nat.mul_le_mul_left _ herr2
      _ = (80 * n + 40) * b := by ring
    have t2 : 42 * (base * d) ≤ 80 * n + 40 :=
      Nat.le_of_mul_le_mul_right t1 hb
    have h2n : base * d ≤ 2 * n := by nlinarith [t2, hA20]
    rw [Nat.le_div_iff_mul_le hd0]
    have hhalf : 2 * (base / 2) ≤ base := by omega
    have h3 : 2 * (base / 2 * d) ≤ base * d := by
      calc 2 * (base / 2 * d) = 2 * (base / 2) * d := by ring
      _ ≤ base * d := Nat.mul_le_mul_right d hhalf
    nlinarith [h2n, h3]
  · -- upper bound
    have hqd : n / d * d ≤ n := Nat.div_mul_le_self n d
    by_contra hcon
    push_neg at hcon
    have h1 : 3 * base + 1 ≤ 2 * (n / d) := hcon
    have s1 : d * (3 * base + 1) ≤ 2 * n := by
      calc d * (3 * base + 1) ≤ d * (2 * (n / d)) :=
        Nat.mul_le_mul_left d h1
      _ = 2 * (n / d * d) := by ring
      _ ≤ 2 * n := by omega
    have s2 : d * (3 * base + 1) = 3 * (base * d) + d := by ring
    have v1 : 40 * n * b ≤ (58 * (base * d) + 20) * b := by
      calc 40 * n * b = 20 * (2 * n * b) := by ring
      _ ≤ 20 * (2 * (base * c * d) + b) := Nat.mul_le_mul_left _ herr1
      _ = base * d * (40 * c) + 20 * b := by ring
      _ ≤ base * d * (58 * b) + 20 * b := by
          have : 40 * c ≤ 58 * b := by omega
          exact Nat.add_le_add_right (Nat.mul_le_mul_left _ this) _
      _ = (58 * (base * d) + 20) * b := by ring
    have v2 : 40 * n ≤ 58 * (base * d) + 20 :=
      Nat.le_of_mul_le_mul_right v1 hb
    rw [s2] at s1
    obtain ⟨A, hA⟩ : ∃ A, base * d = A := ⟨_, rfl⟩
    rw [hA] at s1 v2 hA20
    omega

/-- Bounds of the truncated rounded product `base * (c / b)` when the
float factor `c / b` is exactly representable, i.e. `2 * c = b * w` with
`w ∈ {1, 2, 3}` (the jitter factors 0.5, 1.0 and 1.5 from
`j ∈ {5, 10, 15}`): rounding is then exact and the result is
`⌊base * w / 2⌋ ∈ [⌊base / 2⌋, ⌊3 * base / 2⌋]`. -/
theorem round32_exact_bounds (base c b w : Nat) (hbase1 : 1 ≤ base)
    (hbase2 : base ≤ 2 ^ 22) (hb : 0 < b) (hw : 2 * c = b * w)
    (hw1 : 1 ≤ w) (hw3 : w ≤ 3) :
    base / 2 ≤ (round32 (base * c) b).1 / (round32 (base * c) b).2 ∧
    2 * ((round32 (base * c) b).1 / (round32 (base * c) b).2) ≤ 3 * base := by
  have hbw : 0 < b * w := Nat.mul_pos hb (by omega)
  have hc0 : 0 < c := by omega
  have hcb : c < 2 * b := by
    have h3 : b * w ≤ b * 3 := Nat.mul_le_mul_left b hw3
    omega
  have ha : 0 < base * c := Nat.mul_pos hbase1 hc0
  have hlt : base * c < 2 ^ 23 * b := by
    calc base * c ≤ 2 ^ 22 * c := Nat.mul_le_mul_right c hbase2
    _ < 2 ^ 22 * (2 * b) := (Nat.mul_lt_mul_left (by positivity)).mpr hcb
    _ = 2 ^ 23 * b := by
        rw [show (2 : Nat) ^ 23 = 2 ^ 22 * 2 from by norm_num]
        ring
  obtain ⟨⟨e, he1, hdeq⟩, _, _, _, _⟩ := round32_spec (base * c) b ha hb hlt
  have hd0 : 0 < (round32 (base * c) b).2 := by
    rw [hdeq]
    positivity
  have hdvd : b ∣ base * c * (round32 (base * c) b).2 := by
    rw [hdeq]
    refine ⟨base * w * 2 ^ (e - 1), ?_⟩
    have h2e : (2 : Nat) ^ e = 2 * 2 ^ (e - 1) := by
      conv_lhs => rw [show e = 1 + (e - 1) from by omega]
      rw [pow_add, pow_one]
    calc base * c * 2 ^ e = base * (2 * c) * 2 ^ (e - 1) := by rw [h2e]; ring
    _ = base * (b * w) * 2 ^ (e - 1) := by rw [hw]
    _ = b * (base * w * 2 ^ (e - 1)) := by ring
  have hexact := round32_exact (base * c) b ha hb hlt hdvd
  have hq : (round32 (base * c) b).1 / (round32 (base * c) b).2 = base * c / b :=
    nat_div_eq_of_cross _ _ _ _ hb hd0 hexact
  have hval : base * c / b = base * w / 2 := by
    calc base * c / b = base * c * 2 / (b * 2) :=
      (Nat.mul_div_mul_right _ _ (show (0 : Nat) < 2 by norm_num)).symm
    _ = base * w * b / (2 * b) := by
        congr 1
        · calc base * c * 2 = base * (2 * c) := by ring
          _ = base * (b * w) := by rw [hw]
          _ = base * w * b := by ring
        · ring
    _ = base * w / 2 := Nat.mul_div_mul_right _ _ hb
  rw [hq, hval]
  have h1 : base * w ≤ base * 3 := Nat.mul_le_mul_left base hw3
  have h1' : base ≤ base * w := Nat.le_mul_of_pos_right base (by omega)
  constructor
  · exact Nat.div_le_div_right h1'
  · obtain ⟨W, hW⟩ : ∃ W, base * w = W := ⟨_, rfl⟩
    rw [hW] at h1 ⊢
    omega

/-- The jitter multiply `interval * float(j) / 10` for `j ∈ [5, 15]` and
`interval ≤ 2 ^ 22` stays within `[⌊interval / 2⌋, ⌊1.5 * interval⌋]`. -/
theorem jitterFloat_bounds (base j : Nat) (hbase : base ≤ 2 ^ 22)
    (hj1 : 5 ≤ j) (hj2 : j ≤ 15) :
    base / 2 ≤ jitterFloat base j ∧ 2 * jitterFloat base j ≤ 3 * base := by
  rcases Nat.eq_zero_or_pos base with rfl | hpos
  · have h0 : jitterFloat 0 j = 0 := by
      show (round32 (0 * (round32 j 10).1) (round32 j 10).2).1 /
          (round32 (0 * (round32 j 10).1) (round32 j 10).2).2 = 0
      rw [Nat.zero_mul]
      simp [round32]
    simp [h0]
  · interval_cases j
    · have hf : round32 5 10 = (8388608, 16777216) := by decide
      have hj : jitterFloat base 5 = (round32 (base * 8388608) 16777216).1 /
          (round32 (base * 8388608) 16777216).2 := by
        show (round32 (base * (round32 5 10).1) (round32 5 10).2).1 /
            (round32 (base * (round32 5 10).1) (round32 5 10).2).2 = _
        rw [hf]
      rw [hj]
      exact round32_exact_bounds base 8388608 16777216 1 hpos hbase
        (by norm_num) (by norm_num) (by norm_num) (by norm_num)
    · have hf : round32 6 10 = (10066330, 16777216) := by decide
      have hj : jitterFloat base 6 = (round32 (base * 10066330) 16777216).1 /
          (round32 (base * 10066330) 16777216).2 := by
        show (round32 (base * (round32 6 10).1) (round32 6 10).2).1 /
            (round32 (base * (round32 6 10).1) (round32 6 10).2).2 = _
        rw [hf]
      rw [hj]
      exact round32_mid_bounds base 10066330 16777216 hpos hbase
        (by norm_num) (by norm_num) (by norm_num)
    · have hf : round32 7 10 = (11744051, 16777216) := by decide
      have hj : jitterFloat base 7 = (round32 (base * 11744051) 16777216).1 /
          (round32 (base * 11744051) 16777216).2 := by
        show (round32 (base * (round32 7 10).1) (round32 7 10).2).1 /
            (round32 (base * (round32 7 10).1) (round32 7 10).2).2 = _
        rw [hf]
      rw [hj]
      exact round32_mid_bounds base 11744051 16777216 hpos hbase
        (by norm_num) (by norm_num) (by norm_num)
    · have hf : round32 8 10 = (13421773, 16777216) := by decide
      have hj : jitterFloat base 8 = (round32 (base * 13421773) 16777216).1 /
          (round32 (base * 13421773) 16777216).2 := by
        show (round32 (base * (round32 8 10).1) (round32 8 10).2).1 /
            (round32 (base * (round32 8 10).1) (round32 8 10).2).2 = _
        rw [hf]
      rw [hj]
      exact round32_mid_bounds base 13421773 16777216 hpos hbase
        (by norm_num) (by norm_num) (by norm_num)
    · have hf : round32 9 10 = (15099494, 16777216) := by decide
      have hj : jitterFloat base 9 = (round32 (base * 15099494) 16777216).1 /
          (round32 (base * 15099494) 16777216).2 := by
        show (round32 (base * (round32 9 10).1) (round32 9 10).2).1 /
            (round32 (base * (round32 9 10).1) (round32 9 10).2).2 = _
        rw [hf]
      rw [hj]
      exact round32_mid_bounds base 15099494 16777216 hpos hbase
        (by norm_num) (by norm_num) (by norm_num)
    · have hf : round32 10 10 = (8388608, 8388608) := by decide
      have hj : jitterFloat base 10 = (round32 (base * 8388608) 8388608).1 /
          (round32 (base * 8388608) 8388608).2 := by
        show (round32 (base * (round32 10 10).1) (round32 10 10).2).1 /
            (round32 (base * (round32 10 10).1) (round32 10 10).2).2 = _
        rw [hf]
      rw [hj]
      exact round32_exact_bounds base 8388608 8388608 2 hpos hbase
        (by norm_num) (by norm_num) (by norm_num) (by norm_num)
    · have hf : round32 11 10 = (9227469, 8388608) := by decide
      have hj : jitterFloat base 11 = (round32 (base * 9227469) 8388608).1 /
          (round32 (base * 9227469) 8388608).2 := by
        show (round32 (base * (round32 11 10).1) (round32 11 10).2).1 /
            (round32 (base * (round32 11 10).1) (round32 11 10).2).2 = _
        rw [hf]
      rw [hj]
      exact round32_mid_bounds base 9227469 8388608 hpos hbase
        (by norm_num) (by norm_num) (by norm_num)
    · have hf : round32 12 10 = (10066330, 8388608) := by decide
      have hj : jitterFloat base 12 = (round32 (base * 10066330) 8388608).1 /
          (round32 (base * 10066330) 8388608).2 := by
        show (round32 (base * (round32 12 10).1) (round32 12 10).2).1 /
            (round32 (base * (round32 12 10).1) (round32 12 10).2).2 = _
        rw [hf]
      rw [hj]
      exact round32_mid_bounds base 10066330 8388608 hpos hbase
        (by norm_num) (by norm_num) (by norm_num)
    · have hf : round32 13 10 = (10905190, 8388608) := by decide
      have hj : jitterFloat base 13 = (round32 (base * 10905190) 8388608).1 /
          (round32 (base * 10905190) 8388608).2 := by
        show (round32 (base * (round32 13 10).1) (round32 13 10).2).1 /
            (round32 (base * (round32 13 10).1) (round32 13 10).2).2 = _
        rw [hf]
      rw [hj]
      exact round32_mid_bounds base 10905190 8388608 hpos hbase
        (by norm_num) (by norm_num) (by norm_num)
    · have hf : round32 14 10 = (11744051, 8388608) := by decide
      have hj : jitterFloat base 14 = (round32 (base * 11744051) 8388608).1 /
          (round32 (base * 11744051) 8388608).2 := by
        show (round32 (base * (round32 14 10).1) (round32 14 10).2).1 /
            (round32 (base * (round32 14 10).1) (round32 14 10).2).2 = _
        rw [hf]
      rw [hj]
      exact round32_mid_bounds base 11744051 8388608 hpos hbase
        (by norm_num) (by norm_num) (by norm_num)
    · have hf : round32 15 10 = (12582912, 8388608) := by decide
      have hj : jitterFloat base 15 = (round32 (base * 12582912) 8388608).1 /
          (round32 (base * 12582912) 8388608).2 := by
        show (round32 (base * (round32 15 10).1) (round32 15 10).2).1 /
            (round32 (base * (round32 15 10).1) (round32 15 10).2).2 = _
        rw [hf]
      rw [hj]
      exact round32_exact_bounds base 12582912 8388608 3 hpos hbase
        (by norm_num) (by norm_num) (by norm_num) (by norm_num)

/-- The recomputed base interval never exceeds the maximum video
interval (the clamp at Peer.cpp:1188). -/
theorem baseInterval_le (maxVideoIntervalMs : Nat) (p : Peer) (now : Nat) :
    baseInterval maxVideoIntervalMs p now ≤ maxVideoIntervalMs := by
  unfold baseInterval
  split
  · exact le_refl _
  · simp only []
    split <;> split <;> omega

/-- C2 (amended): on every timer tick the base interval is the maximum
video interval when no Consumers exist, else `360000 / R` (R the summed
per-consumer kbps rate) clamped at the maximum — as the claim states —
but the jitter multiply is binary32 arithmetic truncated to an integer,
so with the drawn `j ∈ [5, 15]` the re-armed interval lies in
`[⌊0.5 * base⌋, 1.5 * base]`: the lower endpoint is floored, not the
real-number `0.5 * base` of the claim. -/
theorem c2_amended_interval_law (maxVideoIntervalMs : Nat)
    (hmax : maxVideoIntervalMs ≤ 2 ^ 22) (p : Peer) (now j : Nat)
    (hj1 : 5 ≤ j) (hj2 : j ≤ 15) :
    baseInterval maxVideoIntervalMs p now / 2 ≤ onTimerInterval maxVideoIntervalMs p now j ∧
    2 * onTimerInterval maxVideoIntervalMs p now j ≤
      3 * baseInterval maxVideoIntervalMs p now :=
  jitterFloat_bounds (baseInterval maxVideoIntervalMs p now) j
    (le_trans (baseInterval_le maxVideoIntervalMs p now) hmax) hj1 hj2

/-- C2 witness for the amended theorem: spec scenario S5 — two Consumers
at 500 and 1500 kbps give base interval `360000 / 2000 = 180` ms, and for
the draw `j = 7` the re-armed interval obeys the floored interval law. -/
theorem c2_amended_interval_law_witness :
    (1000 ≤ 2 ^ 22 ∧ 5 ≤ 7 ∧ 7 ≤ 15) ∧
    (baseInterval 1000 c2PeerS5 0 / 2 ≤ onTimerInterval 1000 c2PeerS5 0 7 ∧
      2 * onTimerInterval 1000 c2PeerS5 0 7 ≤ 3 * baseInterval 1000 c2PeerS5 0) :=
  ⟨⟨by norm_num, by norm_num, by norm_num⟩,
    c2_amended_interval_law 1000 (by norm_num) c2PeerS5 0 7 (by norm_num) (by norm_num)⟩

/-- C2 counterexample: one Consumer at 120000 kbps gives base interval
`360000 / 120000 = 3` ms; for the random draw `j = 5` the re-armed
interval is `trunc(3 * 0.5) = 1` ms, strictly below the `0.5 * base =
1.5` ms lower bound the claim asserts (and not equal to `base * j / 10`),
so the next interval does not lie in `[0.5, 1.5] * base`. -/
theorem c2_interval_truncation_cex :
    baseInterval 1000 c2Peer 0 = 3 ∧
    onTimerInterval 1000 c2Peer 0 5 = 1 ∧
    2 * onTimerInterval 1000 c2Peer 0 5 < baseInterval 1000 c2Peer 0 :=
  ⟨rfl, rfl, by decide⟩

end MediasoupPeer
